import Mathlib

/-!
Verification of the stateless dialog router of an appliance-parts support
assistant.  The definitions below are a shallow embedding of the TypeScript
sources (backend/src/agent/router.ts, tools.ts, groqHelpers.ts): each Lean
definition mirrors the function of the same name in the source.  JavaScript
strings are modelled as Lean strings; the handful of regular expressions in
the source are modelled by explicit scanners with the same matching
semantics.  The single external HTTP classification call and the single
Math.random draw are modelled as explicit oracle inputs threaded through an
environment record.
-/

/-- Message roles, from types.ts. -/
inductive Role where
  | user
  | assistant
deriving DecidableEq, Repr

/-- A chat turn, from types.ts (ChatMessage). -/
structure ChatMessage where
  role : Role
  content : String
deriving DecidableEq, Repr

/-- Closed intent enumeration, from types.ts. -/
inductive Intent where
  | part_lookup
  | compatibility_check
  | installation_help
  | troubleshooting
  | order_support
  | unknown
deriving DecidableEq, Repr

/-- Appliance enumeration, from router.ts. -/
inductive Appliance where
  | refrigerator
  | dishwasher
  | unknown
deriving DecidableEq, Repr

/-- Pump-sound classification values, from router.ts / groqHelpers.ts. -/
inductive PumpSound where
  | running
  | humming
  | silent
  | unknown
deriving DecidableEq, Repr

/-! ## Character and string primitives

JavaScript string operations used by the source, restricted to the ASCII
behaviour that the involved texts exercise. -/

/-- ASCII lower-casing of a character (JS toLowerCase on ASCII). -/
def lowChar (c : Char) : Char :=
  if 'A' ≤ c ∧ c ≤ 'Z' then Char.ofNat (c.toNat + 32) else c

/-- ASCII upper-casing of a character (JS toUpperCase on ASCII). -/
def upChar (c : Char) : Char :=
  if 'a' ≤ c ∧ c ≤ 'z' then Char.ofNat (c.toNat - 32) else c

/-- Lower-case a string. -/
def strLower (s : String) : String := String.mk (s.data.map lowChar)

/-- Upper-case a string. -/
def strUpper (s : String) : String := String.mk (s.data.map upChar)

/-- Whitespace test (the texts involved only use plain spaces, tabs and
newlines out of the JS whitespace class). -/
def isWs (c : Char) : Bool := c = ' ' ∨ c = '\t' ∨ c = '\n' ∨ c = '\r'

/-- JS word character, the regex class of backslash-w. -/
def wordChar (c : Char) : Bool := c.isAlphanum ∨ c = '_'

/-- Drop leading and trailing whitespace (JS trim). -/
def strTrim (s : String) : String :=
  String.mk (((s.data.dropWhile isWs).reverse.dropWhile isWs).reverse)

/-- Collapse whitespace runs to single spaces; the recursion carries whether
the previous character was whitespace. -/
def collapseWsAux : Bool → List Char → List Char
  | _, [] => []
  | prevWs, c :: rest =>
    if isWs c then
      if prevWs then collapseWsAux true rest else ' ' :: collapseWsAux true rest
    else c :: collapseWsAux false rest

/-- Source: norm = trim, lowercase, collapse whitespace runs to one space. -/
def norm (s : String) : String :=
  String.mk (collapseWsAux false (strTrim (strLower s)).data)

/-- Source: onlyLetters = lowercase and strip every non a–z character. -/
def onlyLetters (s : String) : String :=
  String.mk ((s.data.map lowChar).filter (fun c => 'a' ≤ c ∧ c ≤ 'z'))

/-- List-level substring containment (JS String.includes). -/
def listInfix (needle : List Char) : List Char → Bool
  | [] => needle.isEmpty
  | c :: rest => needle.isPrefixOf (c :: rest) ∨ listInfix needle rest

/-- JS includes on strings. -/
def containsSub (hay needle : String) : Bool := listInfix needle.data hay.data

/-- JS startsWith on strings. -/
def startsWithStr (s pre : String) : Bool := pre.data.isPrefixOf s.data

/-- Length of the maximal digit prefix of a character list. -/
def digitTake : List Char → List Char
  | [] => []
  | c :: r => if c.isDigit then c :: digitTake r else []

/-- A word boundary holds before the scan position when there is no previous
character or the previous character is a non-word character. -/
def boundaryBefore : Option Char → Bool
  | none => true
  | some p => ¬ wordChar p

/-- A word boundary holds after a token when the rest of the text is empty or
starts with a non-word character. -/
def boundaryAfter : List Char → Bool
  | [] => true
  | c :: _ => ¬ wordChar c

/-! ## Entity extraction (router.ts lines 64–161)

The regular expressions of the source are modelled by explicit scanners
with JS leftmost-match and greedy semantics. -/

/-- Scanner for the anchored pattern PS followed by lo–hi digits between word
boundaries (the regexes of extractPartNumber and extractShortPartToken, after
the text has been upper-cased).  With greedy digits and a trailing boundary, a
PS digit run of length k matches exactly when lo ≤ k ≤ hi and the character
after the run is not a word character. -/
def psMatchAt (lo hi : Nat) (prev : Option Char) : List Char → Option (List Char)
  | 'P' :: 'S' :: rest2 =>
    let ds := digitTake rest2
    if boundaryBefore prev ∧ lo ≤ ds.length ∧ ds.length ≤ hi ∧
        boundaryAfter (rest2.drop ds.length) then
      some ('P' :: 'S' :: ds)
    else none
  | _ => none

/-- Leftmost scan for the anchored PS pattern: attempt a match at every
position, tracking the previous character for the leading boundary. -/
def findPS (lo hi : Nat) : Option Char → List Char → Option (List Char)
  | _, [] => none
  | prev, c :: rest =>
    match psMatchAt lo hi prev (c :: rest) with
    | some t => some t
    | none => findPS lo hi (some c) rest

/-- Source: extractPartNumber — upper-case the text and match the pattern of
PS plus 5–10 digits between word boundaries. -/
def extractPartNumber (text : String) : Option String :=
  (findPS 5 10 none (strUpper text).data).map String.mk

/-- Source: extractShortPartToken — an incomplete token of PS plus 1–4 digits
between word boundaries, on the upper-cased text. -/
def extractShortPartToken (text : String) : Option String :=
  (findPS 1 4 none (strUpper text).data).map String.mk

/-- Scanner for the unanchored, case-insensitive pattern PS followed by 5–10
digits (PS_IN_URL_RE).  No word boundaries: a digit run of length at least 5
matches and the greedy quantifier takes the first min(k,10) digits. -/
def findPSUrl : List Char → Option (List Char)
  | [] => none
  | c :: rest =>
    if c = 'P' ∨ c = 'p' then
      match rest with
      | s :: rest2 =>
        if s = 'S' ∨ s = 's' then
          let ds := digitTake rest2
          if 5 ≤ ds.length then some (c :: s :: ds.take 10)
          else findPSUrl (s :: rest2)
        else findPSUrl (s :: rest2)
      | [] => none
    else findPSUrl rest

/-- Source: extractPartNumberFromLinkOrText — the plain extractor first, then
the boundary-free URL pattern, upper-casing the capture. -/
def extractPartNumberFromLinkOrText (text : String) : Option String :=
  match extractPartNumber text with
  | some v => some v
  | none => (findPSUrl text.data).map (fun l => String.mk (l.map upChar))

/-- Source: looksLikeUrl, a crude URL check by substrings. -/
def looksLikeUrl (text : String) : Bool :=
  let t := strLower text
  containsSub t "http://" ∨ containsSub t "https://" ∨ containsSub t "www." ∨
    containsSub t ".com/" ∨ containsSub t ".net/"

/-! ### Email matching (EMAIL_RE) -/

/-- Local-part character class of EMAIL_RE, case-insensitively. -/
def emailLocalChar (c : Char) : Bool :=
  c.isAlphanum ∨ c = '.' ∨ c = '_' ∨ c = '%' ∨ c = '+' ∨ c = '-'

/-- Domain character class of EMAIL_RE. -/
def emailDomChar (c : Char) : Bool := c.isAlphanum ∨ c = '.' ∨ c = '-'

/-- ASCII letter test (the final class of EMAIL_RE, case-insensitively). -/
def asciiAlpha (c : Char) : Bool := c.isAlpha

/-- Backtracking over the greedy domain run: find the largest cut d of the
run r such that a dot followed by at least two letters comes next; returns the
matched domain portion including the dot and the final greedy letter run. -/
def emailDomSplit : List Char → Option (List Char)
  | [] => none
  | c :: rest =>
    match emailDomSplit rest with
    | some tail => some (c :: tail)
    | none =>
      match rest with
      | '.' :: after =>
        let letters := after.takeWhile asciiAlpha
        if 2 ≤ letters.length then some (c :: '.' :: letters) else none
      | _ => none

/-- Length of the EMAIL_RE match starting exactly at this position, if any:
a maximal run of local characters, an at sign, then the backtracked domain. -/
def emailAt (l : List Char) : Option (List Char) :=
  let loc := l.takeWhile emailLocalChar
  if loc.isEmpty then none
  else
    match l.drop loc.length with
    | '@' :: after =>
      let r := after.takeWhile emailDomChar
      match emailDomSplit r with
      | some dom => some (loc ++ '@' :: dom)
      | none => none
    | _ => none

/-- Leftmost EMAIL_RE match in a character list. -/
def emailScan : List Char → Option (List Char)
  | [] => none
  | c :: rest =>
    match emailAt (c :: rest) with
    | some m => some m
    | none => emailScan rest

/-- Source: extractEmail, the first EMAIL_RE match. -/
def extractEmail (text : String) : Option String :=
  (emailScan text.data).map String.mk

/-- Replace every EMAIL_RE match by a single space (source: stripEmails);
the recursion is fuelled by the remaining length. -/
def stripEmailsAux : Nat → List Char → List Char
  | 0, _ => []
  | _, [] => []
  | fuel + 1, c :: rest =>
    match emailAt (c :: rest) with
    | some m => ' ' :: stripEmailsAux fuel ((c :: rest).drop m.length)
    | none => c :: stripEmailsAux fuel rest

/-- Source: stripEmails. -/
def stripEmails (text : String) : String :=
  String.mk (stripEmailsAux text.data.length text.data)

/-! ### Model-number extraction (router.ts lines 113–161) -/

/-- First-character class of MODEL_TOKEN_RE on the upper-cased text. -/
def modelHeadChar (c : Char) : Bool := ('A' ≤ c ∧ c ≤ 'Z') ∨ c.isDigit

/-- Continuation class of MODEL_TOKEN_RE: upper-case alphanumerics plus
underscore and hyphen. -/
def modelClassChar (c : Char) : Bool := modelHeadChar c ∨ c = '_' ∨ c = '-'

/-- Greedy backtracking over the trailing boundary of a bounded class run:
try the largest quantifier count first, requiring a word boundary after the
consumed characters. -/
def greedyBoundedTake (l : List Char) : Nat → Nat → Option Nat
  | _, 0 => none
  | lo, d + 1 =>
    if lo ≤ d + 1 ∧ d + 1 ≤ l.length ∧ boundaryAfter (l.drop (d + 1)) then
      some (d + 1)
    else greedyBoundedTake l lo d

/-- All MODEL_TOKEN_RE matches, in order, non-overlapping, scanning the
upper-cased text with a previous-character word-boundary check.  Fuelled by
the text length. -/
def modelTokensAux : Nat → Option Char → List Char → List (List Char)
  | 0, _, _ => []
  | _, _, [] => []
  | fuel + 1, prev, c :: rest =>
    if boundaryBefore prev ∧ modelHeadChar c then
      let run := rest.takeWhile modelClassChar
      match greedyBoundedTake run 4 (min run.length 23) with
      | some d =>
        (c :: run.take d) ::
          modelTokensAux fuel (some ((run.take d).getLastD c)) (rest.drop d)
      | none => modelTokensAux fuel (some c) rest
    else modelTokensAux fuel (some c) rest

/-- Candidate tokens of MODEL_TOKEN_RE in the upper-cased text. -/
def modelTokens (l : List Char) : List (List Char) :=
  modelTokensAux l.length none l

/-- Take the main chunk before a forward or backward slash (the source splits
each candidate on both; the token class contains neither, so this is the
identity on scanner output, mirrored for faithfulness). -/
def chunkMain (t : List Char) : List Char :=
  t.takeWhile (fun c => ¬ (c = '/' ∨ c = '\\'))

/-- Source: looksLikeRealModelToken. -/
def looksLikeRealModelToken (x : String) : Bool :=
  ¬ (x = "NUMBER" ∨ x = "MODEL" ∨ x = "UNKNOWN" ∨ x = "N/A" ∨ x = "NULL" ∨
      x = "NONE" ∨ x = "HELLO" ∨ x = "THANKS") ∧
  5 ≤ x.length ∧
  x.data.any (fun c => 'A' ≤ c ∧ c ≤ 'Z') ∧
  x.data.any Char.isDigit ∧
  ¬ startsWithStr x "PS" ∧
  ¬ (8 ≤ x.length ∧ x.data.all Char.isDigit)

/-- Token capture of the explicit MODEL phrase regex starting at a given
suffix, after the literal MODEL has been consumed: optional whitespace, an
optional NUMBER literal, optional whitespace, an optional IS or colon,
optional whitespace, then a bounded class token with a trailing boundary.
Alternatives are tried greedy-first as the regex engine would. -/
def modelPhraseTail (l : List Char) : Option (List Char) :=
  let tok : List Char → Option (List Char) := fun r =>
    match r with
    | c :: rest =>
      if modelHeadChar c then
        let run := rest.takeWhile modelClassChar
        match greedyBoundedTake run 2 (min run.length 24) with
        | some d => some (c :: run.take d)
        | none => none
      else none
    | [] => none
  let afterIs : List Char → Option (List Char) := fun r =>
    let r1 :=
      match r with
      | 'I' :: 'S' :: rr => rr.dropWhile isWs
      | ':' :: rr => rr.dropWhile isWs
      | _ => r
    match tok r1 with
    | some t => some t
    | none => tok r
  let r0 := l.dropWhile isWs
  match r0 with
  | 'N' :: 'U' :: 'M' :: 'B' :: 'E' :: 'R' :: rr =>
    match afterIs (rr.dropWhile isWs) with
    | some t => some t
    | none => afterIs r0
  | _ => afterIs r0

/-- Scan for a word-bounded MODEL literal and apply the phrase tail; fuelled
by the text length. -/
def modelPhraseScan : Nat → Option Char → List Char → Option (List Char)
  | 0, _, _ => none
  | _, _, [] => none
  | fuel + 1, prev, c :: rest =>
    if boundaryBefore prev ∧ c = 'M' then
      match rest with
      | 'O' :: 'D' :: 'E' :: 'L' :: rr =>
        match modelPhraseTail rr with
        | some t => some t
        | none => modelPhraseScan fuel (some c) rest
      | _ => modelPhraseScan fuel (some c) rest
    else modelPhraseScan fuel (some c) rest

/-- Source: extractModelNumber — scrub emails, upper-case, try the explicit
MODEL phrase, then scan MODEL_TOKEN_RE candidates through the filters and the
noise denylist. -/
def extractModelNumber (text : String) : Option String :=
  let up := (strUpper (stripEmails text)).data
  let phrase :=
    match modelPhraseScan up.length none up with
    | some t =>
      let token := String.mk (chunkMain t)
      if ¬ startsWithStr token "PS" ∧ looksLikeRealModelToken token then
        some token
      else none
    | none => none
  match phrase with
  | some t => some t
  | none =>
    let cands := (modelTokens up).map (fun raw => String.mk (chunkMain raw))
    (cands.filter (fun token =>
      looksLikeRealModelToken token ∧
      ¬ (token = "DRAIN" ∨ token = "INSTALL" ∨ token = "REFUND" ∨
          token = "RETURN"))).head?

/-! ### Order id and zip extraction (router.ts lines 233–251) -/

/-- Character class of the ORDER_RE capture group. -/
def orderIdChar (c : Char) : Bool := ('A' ≤ c ∧ c ≤ 'Z') ∨ c.isDigit ∨ c = '-'

/-- Tail of ORDER_RE after the ORD or ORDER literal: optional whitespace, an
optional hash, optional whitespace, then a 5–20 character class run with a
trailing word boundary (greedy with backtracking over the boundary). -/
def orderTail (l : List Char) : Option (List Char) :=
  let r1 := l.dropWhile isWs
  let r2 := match r1 with
    | '#' :: rr => rr.dropWhile isWs
    | _ => r1
  let run := r2.takeWhile orderIdChar
  match greedyBoundedTake run 5 (min run.length 20) with
  | some d => some (run.take d)
  | none => none

/-- Scan for a word-bounded ORD or ORDER literal (the ORD alternative is
tried first, as in the source regex) and capture the id; case-insensitive,
so the scan runs over the upper-cased text. -/
def orderScan : Nat → Option Char → List Char → Option (List Char)
  | 0, _, _ => none
  | _, _, [] => none
  | fuel + 1, prev, c :: rest =>
    if boundaryBefore prev ∧ c = 'O' then
      match rest with
      | 'R' :: 'D' :: rr =>
        let viaOrd := orderTail rr
        let res :=
          match viaOrd with
          | some t => some t
          | none =>
            match rr with
            | 'E' :: 'R' :: rr2 => orderTail rr2
            | _ => none
        match res with
        | some t => some t
        | none => orderScan fuel (some c) rest
      | _ => orderScan fuel (some c) rest
    else orderScan fuel (some c) rest

/-- Source: extractOrderId (the capture is already upper-case because the
scan runs over the upper-cased text). -/
def extractOrderId (text : String) : Option String :=
  let up := (strUpper text).data
  (orderScan up.length none up).map String.mk

/-- ZIP_RE: five digits with word boundaries and an optional dash plus four
digits.  The optional group is greedy; if it cannot complete, the bare five
digits match provided the next character is a non-word character. -/
def zipScan : Option Char → List Char → Option (List Char)
  | _, [] => none
  | prev, c :: rest =>
    (if boundaryBefore prev ∧ c.isDigit then
      match rest with
      | d2 :: d3 :: d4 :: d5 :: tail =>
        if d2.isDigit ∧ d3.isDigit ∧ d4.isDigit ∧ d5.isDigit then
          match tail with
          | '-' :: e1 :: e2 :: e3 :: e4 :: tail2 =>
            if e1.isDigit ∧ e2.isDigit ∧ e3.isDigit ∧ e4.isDigit ∧
                boundaryAfter tail2 then
              some [c, d2, d3, d4, d5, '-', e1, e2, e3, e4]
            else if boundaryAfter tail then some [c, d2, d3, d4, d5] else none
          | _ =>
            if boundaryAfter tail then some [c, d2, d3, d4, d5] else none
        else none
      | _ => none
    else none).orElse (fun _ => zipScan (some c) rest)

/-- Source: extractZip. -/
def extractZip (text : String) : Option String :=
  (zipScan none text.data).map String.mk

/-! ## Signal predicates and intent inference (router.ts lines 163–332) -/

/-- Source: inferApplianceFromText — dishwasher signals are checked first,
then refrigerator signals. -/
def inferApplianceFromText (text : String) : Appliance :=
  let t := strLower text
  if containsSub t "dishwasher" ∨ containsSub t "wdt" ∨ containsSub t "kdf" ∨
      containsSub t "not draining" ∨ containsSub t "drain" ∨
      containsSub t "spray arm" ∨ containsSub t "sump" ∨
      containsSub t "air gap" ∨ containsSub t "high loop" then
    .dishwasher
  else if containsSub t "fridge" ∨ containsSub t "refrigerator" ∨
      containsSub t "freezer" ∨ containsSub t "ice maker" ∨
      containsSub t "icemaster" ∨ containsSub t "defrost" ∨
      containsSub t "evaporator" ∨ containsSub t "not cooling" then
    .refrigerator
  else .unknown

/-- Source: wantsAlternatives. -/
def wantsAlternatives (text : String) : Bool :=
  let t := strLower text
  containsSub t "alternative" ∨ containsSub t "alternatives" ∨
    containsSub t "substitute" ∨ containsSub t "replace with" ∨
    containsSub t "other option"

/-- Source: wantsHuman. -/
def wantsHuman (text : String) : Bool :=
  let t := strLower text
  containsSub t "human" ∨ containsSub t "real person" ∨
    containsSub t "live agent" ∨ containsSub t "agent" ∨
    containsSub t "representative" ∨ containsSub t "customer service" ∨
    containsSub t "support" ∨ containsSub t "talk to someone" ∨
    containsSub t "live chat"

/-- Source: looksLikeSmallTalk. -/
def looksLikeSmallTalk (text : String) : Bool :=
  let t := norm text
  t = "hi" ∨ t = "hello" ∨ t = "help" ∨ t = "hello?" ∨ t = "hey" ∨
    t = "hello world" ∨ t = "confused"

/-- Source: looksLikeAck. -/
def looksLikeAck (text : String) : Bool :=
  let t := onlyLetters text
  t = "ok" ∨ t = "okay" ∨ t = "k" ∨ t = "kk" ∨ t = "thanks" ∨
    t = "thankyou" ∨ t = "thx" ∨ t = "cool" ∨ t = "gotit" ∨ t = "great" ∨
    t = "nice" ∨ t = "perfect"

/-- Source: wantsReturnRefundShipping. -/
def wantsReturnRefundShipping (text : String) : Bool :=
  let t := strLower text
  containsSub t "order" ∨ containsSub t "shipping" ∨ containsSub t "deliver" ∨
    containsSub t "delivery" ∨ containsSub t "return" ∨
    containsSub t "refund" ∨ containsSub t "exchange"

/-- Word-bounded, case-insensitive occurrence of a keyword: the scan runs on
the lower-cased text with a lower-cased keyword. -/
def wordBoundedAux (kw : List Char) : Option Char → List Char → Bool
  | _, [] => kw.isEmpty
  | prev, c :: rest =>
    (boundaryBefore prev ∧ kw.isPrefixOf (c :: rest) ∧
      boundaryAfter ((c :: rest).drop kw.length)) ∨
    wordBoundedAux kw (some c) rest

/-- Word-bounded keyword containment on the lower-cased text. -/
def wordBounded (text kw : String) : Bool :=
  wordBoundedAux kw.data none (strLower text).data

/-- Source: hasGlobalIntentKeyword, the INTENT_KEYWORDS_RE test (the
alternation order is irrelevant for a boolean test). -/
def hasGlobalIntentKeyword (text : String) : Bool :=
  wordBounded text "compatibility" ∨ wordBounded text "compatible" ∨
    wordBounded text "install" ∨ wordBounded text "installation" ∨
    wordBounded text "troubleshoot" ∨ wordBounded text "troubleshooting" ∨
    wordBounded text "order" ∨ wordBounded text "shipping" ∨
    wordBounded text "return" ∨ wordBounded text "refund" ∨
    wordBounded text "human" ∨ wordBounded text "agent" ∨
    wordBounded text "representative" ∨ wordBounded text "customer service" ∨
    wordBounded text "support"

/-- Source: inferIntent — the ordered keyword cascade: human handoff, then
installation, compatibility, part lookup, order, troubleshooting. -/
def inferIntent (text : String) : Intent :=
  let t := strLower text
  if wantsHuman text then .order_support
  else if containsSub t "install" ∨ containsSub t "how do i install" ∨
      containsSub t "installation" ∨ containsSub t "replacement" ∨
      containsSub t "replace" ∨ containsSub t "remove" ∨
      containsSub t "swap" then
    .installation_help
  else if containsSub t "compatible" ∨ containsSub t "compatibility" ∨
      containsSub t "fit my model" ∨ containsSub t "fits my model" then
    .compatibility_check
  else if wantsAlternatives text then .part_lookup
  else if (extractPartNumberFromLinkOrText text).isSome then .part_lookup
  else if wantsReturnRefundShipping text ∨ (extractOrderId text).isSome ∨
      (extractZip text).isSome then
    .order_support
  else if containsSub t "not working" ∨ containsSub t "won\x27t" ∨
      containsSub t "doesn\x27t" ∨ containsSub t "troubleshoot" ∨
      containsSub t "fix" ∨ containsSub t "not cooling" ∨
      containsSub t "not draining" ∨ containsSub t "leak" ∨
      containsSub t "error code" ∨ containsSub t "e:" ∨ containsSub t "f:" ∨
      containsSub t "beeping" then
    .troubleshooting
  else .unknown

/-- Source: isClearIntentShift. -/
def isClearIntentShift (text : String) : Bool :=
  if text = "" then false
  else if wantsHuman text ∨ wantsAlternatives text then true
  else if (extractEmail text).isSome then true
  else if (extractOrderId text).isSome ∨ (extractZip text).isSome then true
  else if (extractPartNumberFromLinkOrText text).isSome then true
  else if (extractModelNumber text).isSome then true
  else
    let intent := inferIntent text
    intent = .compatibility_check ∨ intent = .installation_help ∨
      intent = .troubleshooting ∨ intent = .order_support ∨
      intent = .part_lookup

/-! ## History helpers and session resolution (router.ts lines 25–61,
334–392) -/

/-- Source: lastNUser — the last n user turns. -/
def lastNUser (history : List ChatMessage) (n : Nat) : List ChatMessage :=
  let us := history.filter (fun m => m.role = .user)
  us.drop (us.length - n)

/-- Source: lastAssistant — the most recent assistant turn. -/
def lastAssistant (history : List ChatMessage) : Option ChatMessage :=
  history.reverse.find? (fun (m : ChatMessage) => m.role = Role.assistant)

/-- Source: countUserRepeatsExcludingCurrent — count earlier user turns whose
normalized text equals the current message, ignoring a trailing duplicate of
the current message that the client may have appended. -/
def countUserRepeatsExcludingCurrent (history : List ChatMessage)
    (current : String) : Nat :=
  let cur := norm current
  let h :=
    match history.getLast? with
    | some last =>
      if last.role = Role.user ∧ norm last.content = cur then history.dropLast
      else history
    | none => history
  (h.filter (fun (m : ChatMessage) =>
    m.role = Role.user ∧ norm m.content = cur)).length

/-- Source: messageMentionsAppliance. -/
def messageMentionsAppliance (m : ChatMessage) (appliance : Appliance) :
    Bool :=
  if appliance = .unknown then true
  else inferApplianceFromText m.content = appliance

/-- Source: findLastPartNumber — scan the history backwards through the link
extractor. -/
def findLastPartNumber (history : List ChatMessage) : Option String :=
  (history.reverse.findSome? fun (m : ChatMessage) =>
    extractPartNumberFromLinkOrText m.content)

/-- Source: findLastModelNumberForAppliance — scan user turns backwards,
keeping turns that mention the pinned appliance. -/
def findLastModelNumberForAppliance (history : List ChatMessage)
    (appliance : Appliance) : Option String :=
  (history.reverse.findSome? fun (m : ChatMessage) =>
    if m.role = Role.user ∧ messageMentionsAppliance m appliance then
      extractModelNumber m.content
    else none)

/-- Source: inferPinnedAppliance — the current message first, then a majority
vote over the last 8 user turns, ties returning unknown. -/
def inferPinnedAppliance (message : String) (history : List ChatMessage) :
    Appliance :=
  let now := inferApplianceFromText message
  if now ≠ .unknown then now
  else
    let recent := lastNUser history 8
    let dw := (recent.filter
      (fun m => inferApplianceFromText m.content = .dishwasher)).length
    let rf := (recent.filter
      (fun m => inferApplianceFromText m.content = .refrigerator)).length
    if dw = rf then .unknown
    else if dw > rf then .dishwasher else .refrigerator

/-- Resolved per-turn entities (source: resolveEntities). -/
structure Entities where
  partNumber : Option String
  modelNumber : Option String
  hasIncompletePart : Bool
  shortPart : Option String
deriving DecidableEq, Repr

/-- Source: resolveEntities — current-turn extraction with history
continuity, blocked for the part number while an incomplete token is
pending. -/
def resolveEntities (message : String) (history : List ChatMessage)
    (appliance : Appliance) : Entities :=
  let shortPart := extractShortPartToken message
  let part := extractPartNumberFromLinkOrText message
  let model := extractModelNumber message
  let hasIncompletePart := shortPart.isSome ∧ ¬ part.isSome
  let partNumber :=
    match part with
    | some p => some p
    | none => if hasIncompletePart then none else findLastPartNumber history
  let modelNumber :=
    match model with
    | some m => some m
    | none => findLastModelNumberForAppliance history appliance
  ⟨partNumber, modelNumber, hasIncompletePart, shortPart⟩

/-! ## Dialog state (router.ts lines 394–634) -/

/-- Ask variants of the order_info slot. -/
inductive OrderAsk where
  | order_id
  | zip
  | both
deriving DecidableEq, Repr

/-- The tagged slot variants (source type Awaiting; the did_it_fix context is
always drain_issue and the choice options are always the fixed triple, so
both are modelled as plain constructors). -/
inductive Awaiting where
  | pump_sound
  | dishwasher_drain_speed
  | drain_hose_setup
  | sink_connection_type
  | disposal_flow_yesno
  | disposal_knockout_yesno
  | tailpiece_gunk_yesno
  | did_it_fix_yesno
  | choice
  | install_step
  | clamp_type
  | panel_fastener
  | connector_latch_side
  | order_info (ask : OrderAsk)
  | fridge_freezer_warming_yesno
  | panel_still_wont_drop_yesno
  | connector_moving_or_stuck
deriving DecidableEq, Repr

/-- Slot reconstruction from the lower-cased text of the most recent
assistant reply (the body of inferDialogState, source lines 419–495; the
rules are evaluated top to bottom, first match wins). -/
def dialogStateFromText (a : String) : Option Awaiting :=
  if (containsSub a "leaving standing water" ∨ containsSub a "standing water") ∧
      (containsSub a "drain slowly" ∨ containsSub a "drains slowly" ∨
        containsSub a "drain is slow" ∨ containsSub a "slow") then
    some .dishwasher_drain_speed
  else if containsSub a "is it leaving standing water" ∧
      containsSub a "or does it drain slowly" then
    some .dishwasher_drain_speed
  else if containsSub a "which one is it: standing water" ∧
      containsSub a "drains slowly" then
    some .dishwasher_drain_speed
  else if (containsSub a "do you hear the drain pump" ∧
        containsSub a "(yes/no)") ∨
      (containsSub a "pump" ∧ containsSub a "running" ∧
        containsSub a "humming" ∧ containsSub a "silent") ∨
      (containsSub a "humming" ∧ containsSub a "totally silent") ∨
      (containsSub a "running, humming" ∧ containsSub a "totally silent") then
    some .pump_sound
  else if (containsSub a "high loop" ∨ containsSub a "air gap") ∧
      containsSub a "under the sink" then
    some .drain_hose_setup
  else if (containsSub a "garbage disposal" ∨ containsSub a "disposal") ∧
      containsSub a "sink tailpiece" then
    some .sink_connection_type
  else if containsSub a "strong water flow" ∧ containsSub a "(yes/no)" then
    some .disposal_flow_yesno
  else if containsSub a "knockout plug" ∧ containsSub a "(yes/no)" then
    some .disposal_knockout_yesno
  else if containsSub a "disconnect" ∧ containsSub a "tailpiece" ∧
      containsSub a "(yes/no)" then
    some .tailpiece_gunk_yesno
  else if (containsSub a "does it drain" ∨ containsSub a "drain normally" ∨
      containsSub a "fixed") ∧ containsSub a "(yes/no)" then
    some .did_it_fix_yesno
  else if (containsSub a "tell me what you want to solve" ∨
        containsSub a "what you want to solve") ∧
      (containsSub a "compatibility" ∧ containsSub a "install" ∧
        containsSub a "symptom") then
    some .choice
  else if containsSub a "compatibility/install/symptom" then some .choice
  else if containsSub a "which step are you on: panel, clamps, or connector" ∨
      containsSub a "which step is blocking you" ∨
      containsSub a
        "which part is giving you trouble: the panel, hose clamps, or the electrical connector" ∨
      (containsSub a "panel" ∧ containsSub a "clamps" ∧
        containsSub a "connector" ∧ containsSub a "?") then
    some .install_step
  else if containsSub a "do you see screws" ∧
      (containsSub a "clips" ∨ containsSub a "plastic clips") then
    some .panel_fastener
  else if containsSub a "spring clamp" ∧ containsSub a "screw clamp" then
    some .clamp_type
  else if containsSub a "do you see a latch" ∧ containsSub a "top" ∧
      containsSub a "side" then
    some .connector_latch_side
  else if containsSub a "where is the latch" ∧ containsSub a "top" ∧
      containsSub a "side" then
    some .connector_latch_side
  else if containsSub a "panel still won’t drop" ∨
      containsSub a "panel still won\x27t drop" then
    some .panel_still_wont_drop_yesno
  else if containsSub a "is it moving at all" ∧
      containsSub a "totally stuck" then
    some .connector_moving_or_stuck
  else if containsSub a "order number" ∧ containsSub a "zip" then
    some (.order_info .both)
  else if containsSub a "order number" then some (.order_info .order_id)
  else if containsSub a "zip code" ∨ containsSub a "postal code" then
    some (.order_info .zip)
  else if containsSub a "is the freezer also warming up" then
    some .fridge_freezer_warming_yesno
  else none

/-- Source: inferDialogState — apply the rule table to the lower-cased text
of the last assistant turn; no assistant turn or empty text gives no slot. -/
def inferDialogState (history : List ChatMessage) : Option Awaiting :=
  let a := strLower (((lastAssistant history).map ChatMessage.content).getD "")
  if a = "" then none else dialogStateFromText a

/-- Source: isAwaitingInstall — the installation slot family, including the
two newer yes/no follow-ups. -/
def isAwaitingInstall : Option Awaiting → Bool
  | some .install_step => true
  | some .clamp_type => true
  | some .panel_fastener => true
  | some .connector_latch_side => true
  | some .panel_still_wont_drop_yesno => true
  | some .connector_moving_or_stuck => true
  | _ => false

/-- Source: isAwaitingTroubleshoot. -/
def isAwaitingTroubleshoot : Option Awaiting → Bool
  | some .pump_sound => true
  | some .dishwasher_drain_speed => true
  | some .drain_hose_setup => true
  | some .sink_connection_type => true
  | some .disposal_flow_yesno => true
  | some .disposal_knockout_yesno => true
  | some .tailpiece_gunk_yesno => true
  | some .did_it_fix_yesno => true
  | _ => false

/-- Source: isAwaitingOrder. -/
def isAwaitingOrder : Option Awaiting → Bool
  | some (.order_info _) => true
  | _ => false

/-- Source: isInstallQuickReply. -/
def isInstallQuickReply (text : String) : Bool :=
  let t := norm text
  t = "panel" ∨ t = "clamps" ∨ t = "clamp" ∨ t = "connector" ∨
    t = "screws" ∨ t = "clips" ∨ t = "spring" ∨ t = "spring clamp" ∨
    t = "screw" ∨ t = "screw clamp" ∨ t = "top" ∨ t = "side" ∨
    t = "stuck" ∨ t = "moving" ∨ t = "totally stuck"

/-- Source: parseYesNo — ternary yes/no on the letters-only text. -/
def parseYesNo (text : String) : Option Bool :=
  let t := onlyLetters text
  if t = "yes" ∨ t = "y" ∨ t = "yeah" ∨ t = "yep" ∨ t = "sure" ∨
      t = "correct" then
    some true
  else if t = "no" ∨ t = "n" ∨ t = "nope" ∨ t = "nah" ∨ t = "notreally" then
    some false
  else none

/-- Choice answers of the choice slot. -/
inductive ChoiceKind where
  | compatibility
  | install
  | symptom
deriving DecidableEq, Repr

/-- Source: parseChoice. -/
def parseChoice (text : String) : Option ChoiceKind :=
  let t := norm text
  if containsSub t "compat" then some .compatibility
  else if containsSub t "install" then some .install
  else if containsSub t "symptom" ∨ containsSub t "issue" ∨
      containsSub t "problem" ∨ containsSub t "trouble" then
    some .symptom
  else none

/-- Clamp kinds. -/
inductive ClampKind where
  | spring
  | screw
deriving DecidableEq, Repr

/-- Source: parseClampType. -/
def parseClampType (text : String) : Option ClampKind :=
  let t := norm text
  if containsSub t "spring" then some .spring
  else if containsSub t "screw" then some .screw
  else none

/-- Drain-speed answers. -/
inductive DrainSpeed where
  | standing
  | slow
deriving DecidableEq, Repr

/-- Source: parseDrainSpeed. -/
def parseDrainSpeed (text : String) : Option DrainSpeed :=
  let t := norm text
  if containsSub t "standing" ∨ containsSub t "still water" ∨
      containsSub t "full of water" ∨ t = "standing water" then
    some .standing
  else if containsSub t "slow" ∨ containsSub t "slowly" ∨
      containsSub t "drain slowly" ∨ containsSub t "drains slowly" then
    some .slow
  else none

/-- Source: parsePumpSound — yes maps to running, no to silent, then keyword
checks, else unknown. -/
def parsePumpSound (text : String) : PumpSound :=
  let t := norm text
  match parseYesNo text with
  | some true => .running
  | some false => .silent
  | none =>
    if containsSub t "hum" ∨ containsSub t "buzz" ∨
        containsSub t "humming" ∨ containsSub t "buzzing" then
      .humming
    else if containsSub t "silent" ∨ containsSub t "no sound" ∨
        containsSub t "quiet" ∨ containsSub t "totally silent" then
      .silent
    else if containsSub t "running" ∨ containsSub t "normal" ∨
        containsSub t "i hear it" ∨ containsSub t "hear it" then
      .running
    else .unknown

/-- Panel fastener kinds. -/
inductive FastenerKind where
  | screws
  | clips
deriving DecidableEq, Repr

/-- Source: parsePanelFastener. -/
def parsePanelFastener (text : String) : Option FastenerKind :=
  let t := norm text
  if containsSub t "screw" then some .screws
  else if containsSub t "clip" then some .clips
  else none

/-- Latch sides. -/
inductive LatchSide where
  | top
  | side
deriving DecidableEq, Repr

/-- Source: parseLatchSide. -/
def parseLatchSide (text : String) : Option LatchSide :=
  let t := norm text
  if containsSub t "top" then some .top
  else if containsSub t "side" then some .side
  else none

/-- Moving-or-stuck answers. -/
inductive MovingOrStuck where
  | moving
  | stuck
  | unknown
deriving DecidableEq, Repr

/-- Source: parseMovingOrStuck. -/
def parseMovingOrStuck (text : String) : MovingOrStuck :=
  let t := norm text
  if containsSub t "moving" then .moving
  else if containsSub t "stuck" then .stuck
  else .unknown

/-- Drain-hose setups. -/
inductive DrainHoseSetup where
  | high_loop
  | air_gap
  | neither
  | sink_connection
  | unknown
deriving DecidableEq, Repr

/-- Source: parseDrainHoseSetup. -/
def parseDrainHoseSetup (text : String) : DrainHoseSetup :=
  let t := norm text
  if containsSub t "air gap" ∨ containsSub t "airgap" then .air_gap
  else if containsSub t "high loop" ∨
      (containsSub t "loop" ∧ containsSub t "high") then
    .high_loop
  else if containsSub t "sink" ∨ containsSub t "disposal" ∨
      containsSub t "garbage disposal" then
    .sink_connection
  else if containsSub t "neither" ∨ containsSub t "none" then .neither
  else if t = "no" then .unknown
  else .unknown

/-- Sink connection types. -/
inductive SinkConnectionType where
  | disposal
  | tailpiece
  | unknown
deriving DecidableEq, Repr

/-- Source: parseSinkConnectionType. -/
def parseSinkConnectionType (text : String) : SinkConnectionType :=
  let t := norm text
  if containsSub t "disposal" ∨ containsSub t "garbage" then .disposal
  else if containsSub t "tailpiece" ∨ containsSub t "tail piece" ∨
      containsSub t "sink" then
    .tailpiece
  else .unknown

/-- Source: everRequestedHuman — scan the last 10 user turns. -/
def everRequestedHuman (history : List ChatMessage) : Bool :=
  (lastNUser history 10).any (fun m => wantsHuman m.content)

/-- Source: handoffPending — the last assistant turn both asks for an email
and mentions a ticket or human follow-up. -/
def handoffPending (history : List ChatMessage) : Bool :=
  match lastAssistant history with
  | none => false
  | some a =>
    let t := strLower a.content
    (containsSub t "send your email" ∨ containsSub t "share your email" ∨
      containsSub t "your email") ∧
    (containsSub t "ticket" ∨ containsSub t "human follow-up" ∨
      containsSub t "human" ∨ containsSub t "support")

/-- Install steps. -/
inductive InstallStep where
  | panel
  | clamps
  | connector
  | unknown
deriving DecidableEq, Repr

/-- Source: detectInstallStepFollowup. -/
def detectInstallStepFollowup (history : List ChatMessage)
    (userMessage : String) : Option InstallStep :=
  let a := strLower (((lastAssistant history).map ChatMessage.content).getD "")
  let u := strLower userMessage
  if hasGlobalIntentKeyword u ∨
      (extractPartNumberFromLinkOrText userMessage).isSome ∨
      (extractModelNumber userMessage).isSome ∨
      wantsReturnRefundShipping userMessage then
    none
  else
    let aAsked :=
      containsSub a "which step is blocking you" ∨
      containsSub a "which step are you on: panel, clamps, or connector" ∨
      (containsSub a "panel" ∧ containsSub a "clamps" ∧
        containsSub a "connector")
    if ¬ aAsked then none
    else if containsSub u "panel" ∨ containsSub u "kickplate" ∨
        containsSub u "access panel" ∨ containsSub u "toe kick" then
      some .panel
    else if containsSub u "clamp" ∨ containsSub u "clamps" ∨
        containsSub u "hose clamp" ∨ containsSub u "pliers" then
      some .clamps
    else if containsSub u "connector" ∨ containsSub u "wire" ∨
        containsSub u "harness" ∨ containsSub u "plug" then
      some .connector
    else none

/-! ## Reply templates (router.ts lines 653–972) -/

/-- Source: replyInstallStepHelp. -/
def replyInstallStepHelp : InstallStep → String
  | .panel =>
    "For the access panel: it’s usually a couple screws along the bottom edge. " ++
    "If it won’t drop, check for hidden clips near the sides. " ++
    "Do you see screws, or plastic clips?"
  | .clamps =>
    "For hose clamps: pliers help — squeeze, slide the clamp back, then twist the hose gently to break the seal. " ++
    "Avoid yanking straight (it can tear the hose). " ++
    "Is it a spring clamp (two tabs) or a screw clamp?"
  | .connector =>
    "For the connector: most have a small locking tab. Press the tab in while pulling straight out. " ++
    "If it’s stuck, wiggle gently — don’t pull on the wires. " ++
    "Do you see a latch on the top or side?"
  | .unknown => "Which step are you on: panel, clamps, or connector?"

/-- Source: replyPanelFastenerHelp. -/
def replyPanelFastenerHelp : FastenerKind → String
  | .screws =>
    "Got it — screws.\n" ++
    "Tip: check the very bottom edge + corners (some are tucked under the toe-kick). If they’re Torx, you may need a T15/T20 bit.\n" ++
    "After removing screws, the panel usually tilts out then drops down.\n\n" ++
    "Do the screws come out but the panel still won’t drop?"
  | .clips =>
    "Got it — clips.\n" ++
    "Tip: pull the panel slightly forward and then down. A plastic pry tool (or a taped flathead) helps avoid cracking.\n\n" ++
    "Do you see clip tabs on the left/right edges, or along the top seam?"

/-- Source: replyConnectorLatchHelp. -/
def replyConnectorLatchHelp : LatchSide → String
  | .top =>
    "Latch on TOP: press the top tab down/in firmly, then pull the connector straight off.\n" ++
    "If it’s tight, push the connector *in* a hair first, then press tab, then pull.\n\n" ++
    "Is it moving at all, or totally stuck?"
  | .side =>
    "Latch on SIDE: pinch/press the side tab inward while pulling straight out.\n" ++
    "Same trick: push in slightly first → press tab → pull.\n\n" ++
    "Is it moving at all, or totally stuck?"

/-- Source: replyHome. -/
def replyHome : String :=
  "Hi! I can help with refrigerator and dishwasher parts on PartSelect — part info, compatibility, installation, and troubleshooting.\n\n" ++
  "Try:\n" ++
  "• “Is PS11752778 compatible with my WDT780SAEM1 model?”\n" ++
  "• “How can I install part number PS11752778?”"

/-- Source: replyAskForFullPart. -/
def replyAskForFullPart (shortToken : Option String) : String :=
  let hint :=
    match shortToken with
    | some t =>
      "\n\nI saw \"" ++ t ++ "\" — part numbers usually look like PS + 5–10 digits."
    | none => ""
  "What’s the full PartSelect part number (starts with PS…)?" ++ hint

/-- Source: compactInstallSteps. -/
def compactInstallSteps (partNumber : String) (modelNumber : Option String) :
    String :=
  let modelLine :=
    match modelNumber with
    | some m => " (model " ++ m ++ ")"
    | none => ""
  "Quick install outline for " ++ partNumber ++ modelLine ++ ":\n" ++
  "1) Turn off power (and water if needed)\n" ++
  "2) Remove the lower access panel\n" ++
  "3) Take a photo of wires/hoses\n" ++
  "4) Disconnect hose clamps + connector\n" ++
  "5) Swap the part, reassemble, run a short test\n\n" ++
  "Which step are you on: panel, clamps, or connector?"

/-- Source: compactInstallRepeatVariant. -/
def compactInstallRepeatVariant (partNumber : String)
    (modelNumber : Option String) (repeats : Nat) : String :=
  let modelLine :=
    match modelNumber with
    | some m => " (" ++ m ++ ")"
    | none => ""
  if repeats % 2 = 0 then
    "Looks like we’re still on the install for " ++ partNumber ++ modelLine ++
      ".\nWant help with panel, clamps, or connector?"
  else
    "No worries — continuing " ++ partNumber ++ modelLine ++
      " install.\nWhich step is blocking you: panel, clamps, or connector?"

/-- Source: troubleshootDishwasher. -/
def troubleshootDishwasher (modelNumber : Option String) (repeated : Bool) :
    String :=
  let header :=
    match modelNumber with
    | some m => "Dishwasher not draining (" ++ m ++ ") — quick checks:"
    | none => "Dishwasher not draining — quick checks:"
  let base :=
    header ++ "\n" ++
    "- Clean the filter/sump area\n" ++
    "- Check drain hose for kinks/clogs\n" ++
    "- Make sure the disposal knockout plug is removed\n\n" ++
    "When it tries to drain, do you hear the drain pump running? (yes/no)"
  if ¬ repeated then base
  else
    base ++
      "\n\nIf you already tried those: share any error code, and whether the pump is silent, humming, or normal."

/-- Source: troubleshootDishwasherDrainPumpFollowup. -/
def troubleshootDishwasherDrainPumpFollowup (hearsPump : Bool) : String :=
  if hearsPump then
    "Got it — pump is running.\n" ++
    "That usually points to a blockage or drain path issue:\n" ++
    "- Check the sink/disposal connection (knockout plug)\n" ++
    "- Inspect the drain hose loop for kinks / gunk\n" ++
    "- If accessible, check the check-valve / drain outlet for debris\n\n" ++
    "Is it leaving standing water, or does it drain slowly?"
  else
    "OK — pump is NOT running.\n" ++
    "That’s more like power/control or a failed pump:\n" ++
    "- Do you hear any hum/click when it tries to drain?\n" ++
    "- Any error code showing?\n" ++
    "- Confirm the door latch is fully closing\n\n" ++
    "If you share the model, I can suggest the best next check."

/-- Source: troubleshootDishwasherDrainSpeedFollowup. -/
def troubleshootDishwasherDrainSpeedFollowup (kind : DrainSpeed) : String :=
  match kind with
  | .slow =>
    "Drain is slow — usually partial blockage.\n" ++
    "- Inspect drain hose for kinks + buildup\n" ++
    "- Check the sink/disposal connection for gunk\n" ++
    "- Clean filter/sump again + look for debris at the drain outlet\n\n" ++
    "Quick check: does your drain hose have a high loop / air gap under the sink?"
  | .standing =>
    "Standing water — closer to a full blockage or a stuck check-valve.\n" ++
    "- Verify disposal knockout plug is removed\n" ++
    "- Check drain hose for a hard clog\n" ++
    "- If accessible, check-valve at the pump outlet may be stuck\n\n" ++
    "When it tries to drain, is it humming/buzzing, or totally silent?"

/-- Source: troubleshootDishwasherHoseSetupFollowup. -/
def troubleshootDishwasherHoseSetupFollowup (kind : DrainHoseSetup) : String :=
  match kind with
  | .high_loop =>
    "Nice — high loop is good.\n" ++
    "Next most common culprit is the sink/disposal connection:\n" ++
    "- If connected to a garbage disposal, confirm the knockout plug was removed\n" ++
    "- Pull the drain hose off and check for gunk at the inlet\n" ++
    "- Check the hose itself for a partial clog (food/grease)\n\n" ++
    "Are you connected to a garbage disposal, or directly to the sink tailpiece?"
  | .air_gap =>
    "Air gap setup — good.\n" ++
    "If draining is slow, the air gap or hose after it may be partially clogged.\n" ++
    "Quick check:\n" ++
    "- Pop the air-gap cap and look for debris\n" ++
    "- Inspect the hose from air gap → disposal/tailpiece for buildup\n\n" ++
    "Do you see any gunk in the air gap, or is it clean?"
  | .sink_connection =>
    "Got it — let’s focus on the sink/disposal side.\n" ++
    "Common issue: disposal knockout plug still in place, or sludge clog at the inlet.\n\n" ++
    "Are you draining into a garbage disposal, or directly to the sink tailpiece?"
  | .neither =>
    "If there’s no high loop / air gap, slow drain can happen from backflow.\n" ++
    "Easy fix: add a high loop (strap the hose up under the counter as high as possible).\n\n" ++
    "After you add the loop, does draining improve? (yes/no)"
  | .unknown =>
    "Do you have a high loop, an air gap, or neither? (And is it connected to the sink tailpiece or garbage disposal?)"

/-- Source: replyDidItFixClose. -/
def replyDidItFixClose (yes : Bool) : String :=
  if yes then
    "Awesome — sounds like it’s draining normally now. ✅\n\n" ++
    "Anything else you want to do?\n" ++
    "- check compatibility (PS… + model)\n" ++
    "- installation steps\n" ++
    "- another symptom"
  else
    "Got it — still not draining right.\n" ++
    "At this point the usual next suspects are:\n" ++
    "- blockage at pump inlet / sump\n" ++
    "- stuck check valve\n" ++
    "- weak/failing drain pump\n\n" ++
    "Do you want to keep troubleshooting here, or do you want a human follow-up? (type “human”)"

/-- Source: troubleshootDishwasherSinkConnectionFollowup. -/
def troubleshootDishwasherSinkConnectionFollowup (kind : SinkConnectionType) :
    String :=
  match kind with
  | .disposal =>
    "Connected to a garbage disposal — biggest gotcha is the knockout plug.\n" ++
    "Quick checks:\n" ++
    "- Remove the drain hose at the disposal inlet and look inside for the knockout plug\n" ++
    "- Clean sludge at the disposal inlet nipple\n" ++
    "- Run disposal briefly + flush hot water\n\n" ++
    "If you remove the hose, do you see strong water flow from the dishwasher when it tries to drain (yes/no)?"
  | .tailpiece =>
    "Connected to the sink tailpiece.\n" ++
    "Quick checks:\n" ++
    "- Check the tailpiece branch nipple for gunk (common)\n" ++
    "- Ensure the hose clamp isn’t pinching the hose\n" ++
    "- Confirm the hose has no sagging low-spot holding water\n\n" ++
    "If you disconnect the hose at the tailpiece, is it clogged with gunk (yes/no)?"
  | .unknown =>
    "Are you connected to a garbage disposal, or directly to the sink tailpiece?"

/-- Source: replyDisposalFlowYesNo. -/
def replyDisposalFlowYesNo (yes : Bool) : String :=
  if yes then
    "Good — that means the dishwasher *is* pumping strongly.\n" ++
    "So the slowdown is almost certainly AFTER the dishwasher:\n" ++
    "- disposal inlet nipple gunk\n" ++
    "- OR the disposal knockout plug still inside\n\n" ++
    "When you look into the disposal inlet (where the hose connects), is the knockout plug already removed? (yes/no)"
  else
    "If there’s weak/no flow at the hose, that points upstream:\n" ++
    "- drain hose clogged/kinked\n" ++
    "- sump/pump inlet blocked\n" ++
    "- check valve stuck\n\n" ++
    "Quick check: if you remove the hose and try draining into a bucket, do you get *any* water at all? (yes/no)"

/-- Source: replyDisposalKnockoutYesNo. -/
def replyDisposalKnockoutYesNo (yes : Bool) : String :=
  if yes then
    "Nice — knockout is removed.\n" ++
    "Next: clean the disposal inlet nipple + the first few inches of hose (it often cakes up with sludge).\n\n" ++
    "After cleaning, does it drain normally now? (yes/no)"
  else
    "That’s likely the whole issue.\n" ++
    "Remove the knockout plug (usually punch it through with a screwdriver, then fish it out).\n" ++
    "Reconnect hose, run disposal briefly, then test drain.\n\n" ++
    "After removing the knockout plug, does it drain normally now? (yes/no)"

/-- Source: replyTailpieceGunkYesNo. -/
def replyTailpieceGunkYesNo (yes : Bool) : String :=
  if yes then
    "Yep — that’ll do it.\n" ++
    "Clean the tailpiece nipple + hose end (bottle brush works), reconnect, and test.\n\n" ++
    "After cleaning, does it drain normally now? (yes/no)"
  else
    "If there’s no gunk there, next suspects are:\n" ++
    "- partial clog somewhere in the hose\n" ++
    "- blockage at pump/check valve\n\n" ++
    "After re-connecting everything, does it drain normally now? (yes/no)"

/-- Source: replyOrderIntake. -/
def replyOrderIntake : OrderAsk → String
  | .both =>
    "To help with order status/returns (demo), send your order number and ZIP code.\nExample: ORDER #A1B2C3 19104"
  | .order_id => "Send your order number (demo).\nExample: ORDER #A1B2C3"
  | .zip => "Send the ZIP code on the order (demo).\nExample: 19104"

/-- Source: replyOrderStub. -/
def replyOrderStub (orderId zip : Option String) : String :=
  let a := match orderId with
    | some o => "order=" ++ o
    | none => "order=n/a"
  let z := match zip with
    | some v => "zip=" ++ v
    | none => "zip=n/a"
  "Got it (" ++ a ++ ", " ++ z ++
    "). In this demo I can’t access real order systems, but I can still help you choose the right path:\n" ++
  "- shipping delay / tracking\n" ++
  "- return / refund policy steps\n" ++
  "- wrong part ordered (compatibility check)\n\n" ++
  "Which one is it: shipping, return/refund, or wrong part?"

/-! ## External tools (tools.ts)

The tools read fixed JSON datasets from disk; here they are functions of the
loaded lists, which the environment record supplies. -/

/-- Attribution source entry. -/
structure SrcRef where
  label : String
  uri : Option String
deriving DecidableEq, Repr

/-- Catalog part (tools.ts Part; named CatalogPart here because Mathlib
already declares a Part). -/
structure CatalogPart where
  partNumber : String
  name : String
  price : Option String
  imageUrl : Option String
  appliance : Appliance
  compatibleModels : List String
deriving DecidableEq, Repr

/-- Compatibility index row (tools.ts CompatibilityRow). -/
structure CompatibilityRow where
  partNumber : String
  models : List String
deriving DecidableEq, Repr

/-- Guide modes. -/
inductive GuideMode where
  | install
  | troubleshoot
  | general
deriving DecidableEq, Repr

/-- Guide record (tools.ts Guide). -/
structure Guide where
  title : String
  url : Option String
  snippet : String
  appliance : Appliance
  mode : GuideMode
  tags : List String
deriving DecidableEq, Repr

/-- Result of the tools (payload plus attribution). -/
structure LookupResult where
  part : Option CatalogPart
  sources : List SrcRef
deriving DecidableEq, Repr

/-- Tri-state compatibility result: some true / some false from a dataset
hit, none when the part is absent from both datasets. -/
structure CompatResult where
  compatible : Option Bool
  sources : List SrcRef
deriving DecidableEq, Repr

/-- Guide-search result. -/
structure GuideSearchResult where
  guides : List Guide
  sources : List SrcRef
deriving DecidableEq, Repr

/-- Uppercase trim normalization used inside tools.ts. -/
def normU (s : String) : String := strUpper (strTrim s)

/-- Source: toolLookupPart. -/
def toolLookupPart (parts : List CatalogPart) (partNumber : String) : LookupResult :=
  let pn := normU partNumber
  let part := parts.find? (fun p => normU p.partNumber = pn)
  ⟨part, [⟨"Sample catalog (mock data)", none⟩]⟩

/-- Source: toolCheckCompatibility — the compatibility index is preferred,
the catalog with a non-empty model list is the fallback, and a part in
neither yields the indeterminate result. -/
def toolCheckCompatibility (compat : List CompatibilityRow)
    (parts : List CatalogPart) (partNumber modelNumber : String) : CompatResult :=
  let pn := normU partNumber
  let mn := normU modelNumber
  match compat.find? (fun r => r.partNumber = pn) with
  | some row =>
    ⟨some (row.models.contains mn), [⟨"Compatibility index (mock data)", none⟩]⟩
  | none =>
    match parts.find? (fun p => p.partNumber = pn) with
    | some part =>
      if part.compatibleModels.length ≠ 0 then
        ⟨some ((part.compatibleModels.map normU).contains mn),
          [⟨"Sample catalog (mock data)", none⟩]⟩
      else ⟨none, [⟨"Compatibility index (mock data)", none⟩]⟩
    | none => ⟨none, [⟨"Compatibility index (mock data)", none⟩]⟩

/-- Split a string on whitespace runs, dropping empty pieces (the JS split
with a whitespace regex composed with a truthiness filter). -/
def splitWsAux : List Char → List Char → List String
  | acc, [] => if acc.isEmpty then [] else [String.mk acc.reverse]
  | acc, c :: rest =>
    if isWs c then
      if acc.isEmpty then splitWsAux [] rest
      else String.mk acc.reverse :: splitWsAux [] rest
    else splitWsAux (c :: acc) rest

/-- Whitespace tokenization. -/
def splitWs (s : String) : List String := splitWsAux [] s.data

/-- Source: scoreGuide — one point per query term contained in the guide
text. -/
def scoreGuide (g : Guide) (q : String) : Nat :=
  let text := strLower (g.title ++ "\n" ++ g.snippet ++ "\n" ++
    String.intercalate " " g.tags)
  ((splitWs (strLower q)).filter (fun t => containsSub text t)).length

/-- Search mode of toolSearchGuides. -/
inductive SearchMode where
  | install
  | troubleshoot
deriving DecidableEq, Repr

/-- Source: modeFilter. -/
def modeFilter (mode : SearchMode) (g : Guide) : Bool :=
  let t := strLower (g.title ++ " " ++ g.snippet)
  let looksInstall :=
    containsSub t "install" ∨ containsSub t "replace" ∨
      containsSub t "remov" ∨ containsSub t "mount" ∨ containsSub t "screw" ∨
      containsSub t "panel" ∨ containsSub t "disconnect power" ∨
      containsSub t "reconnect"
  let looksTrouble :=
    containsSub t "not" ∨ containsSub t "won\x27t" ∨
      containsSub t "doesn\x27t" ∨ containsSub t "troubleshoot" ∨
      containsSub t "check" ∨ containsSub t "inspect" ∨
      containsSub t "diagnos" ∨ containsSub t "symptom" ∨
      containsSub t "clog" ∨ containsSub t "kink" ∨
      containsSub t "error code" ∨ containsSub t "reset"
  if g.mode ≠ .general then
    match mode with
    | .install => g.mode = .install
    | .troubleshoot => g.mode = .troubleshoot
  else
    match mode with
    | .install => looksInstall ∧ ¬ looksTrouble
    | .troubleshoot => looksTrouble

/-- Source: dedupeGuides — stable dedupe keyed on the trimmed lower-cased
title, falling back to a snippet prefix; empty keys are dropped. -/
def dedupeGuidesAux : List String → List Guide → List Guide
  | _, [] => []
  | seen, g :: rest =>
    let key :=
      let k := strLower (strTrim g.title)
      if k = "" then strLower (String.mk (g.snippet.data.take 60)) else k
    if key = "" then dedupeGuidesAux seen rest
    else if seen.contains key then dedupeGuidesAux seen rest
    else g :: dedupeGuidesAux (key :: seen) rest

/-- Source: dedupeGuides. -/
def dedupeGuides (guides : List Guide) : List Guide := dedupeGuidesAux [] guides

/-- Stable descending insertion by score (the JS sort comparator on scores is
stable in V8). -/
def insertByScoreDesc (x : Guide × Nat) :
    List (Guide × Nat) → List (Guide × Nat)
  | [] => [x]
  | y :: t => if x.2 > y.2 then x :: y :: t else y :: insertByScoreDesc x t

/-- Stable descending sort by score. -/
def sortByScoreDesc : List (Guide × Nat) → List (Guide × Nat)
  | [] => []
  | x :: xs => insertByScoreDesc x (sortByScoreDesc xs)

/-- Source: toolSearchGuides. -/
def toolSearchGuides (guides : List Guide) (query : String)
    (appliance : Appliance) (mode : Option SearchMode) (topK : Nat) :
    GuideSearchResult :=
  let topK := max 1 (min topK 6)
  let pool :=
    if appliance ≠ .unknown then
      guides.filter (fun g => g.appliance = appliance ∨ g.appliance = .unknown)
    else guides
  let pool :=
    match mode with
    | some m => pool.filter (fun g => modeFilter m g)
    | none => pool
  let ranked := (sortByScoreDesc (pool.map (fun g => (g, scoreGuide g query)))).map
    (fun x => x.1)
  let picked := (dedupeGuides ranked).take topK
  ⟨picked, [⟨"Guide store (mock data)", some "https://www.partselect.com/..."⟩]⟩

/-! ## External classifier adapter (groqHelpers.ts) -/

/-- Outcome of the single bounded external classification request.  The
timeout constructor stands for the 1.2-second cutoff firing, httpFail for a
non-success status or transport failure, and ok carries the pump_sound field
that JSON extraction produced from the body (none when the body was
unparseable or lacked the field). -/
inductive GroqOutcome where
  | timeout
  | httpFail
  | ok (pumpSoundField : Option String)
deriving DecidableEq, Repr

/-- Source: normalizePumpSound — lower-case, trim, and whitelist against the
closed output set. -/
def normalizePumpSound (x : Option String) : PumpSound :=
  let v := strTrim (strLower (x.getD ""))
  if v = "running" then .running
  else if v = "humming" then .humming
  else if v = "silent" then .silent
  else .unknown

/-- Source: groqParsePumpSound — unknown without a credential; one request
whose timeout, failure, or unparseable body all degrade to unknown; a
successful body goes through the whitelist. -/
def groqParsePumpSound (apiKey : Option String) (outcome : GroqOutcome) :
    PumpSound :=
  match apiKey with
  | none => .unknown
  | some _ =>
    match outcome with
    | .timeout => .unknown
    | .httpFail => .unknown
    | .ok f => normalizePumpSound f

/-! ## Router response model and environment -/

/-- Extracted entity echo of the response meta. -/
structure ExtractedMeta where
  partNumber : Option String
  modelNumber : Option String
  appliance : Appliance
deriving DecidableEq, Repr

/-- Response meta (types.ts ChatResponse meta). -/
structure Meta where
  inDomain : Bool
  intent : Intent
  extracted : ExtractedMeta
  toolsUsed : List String
  sources : List SrcRef
deriving DecidableEq, Repr

/-- Part card payload (types.ts ChatResponse cards, always of type part). -/
structure Card where
  partNumber : String
  name : String
  price : Option String
  imageUrl : Option String
  compatibleModels : List String
deriving DecidableEq, Repr

/-- Chat response (types.ts ChatResponse). -/
structure ChatResponse where
  reply : String
  meta : Meta
  cards : List Card
deriving DecidableEq, Repr

/-- Environment of a single turn: the fixed datasets behind the tools, the
Math.random draw feeding the demo ticket id, and the credential and outcome
of the single external classification request. -/
structure Env where
  compat : List CompatibilityRow
  parts : List CatalogPart
  guides : List Guide
  rand : Nat
  groqApiKey : Option String
  groqOutcome : GroqOutcome
deriving Repr

/-- Source: createSupportTicketDemo — the ticket id embeds the Math.random
draw mapped into the six-digit range. -/
def createSupportTicketDemo (rand : Nat) : String :=
  "TCK-" ++ toString (100000 + rand % 900000)

/-! ## Main router (router.ts handleChatTurn, lines 1006–1613)

The body of handleChatTurn is a prefix of derived per-turn values followed by
a chain of early returns.  The derived values are collected in a context
record; each early-return block is a branch function returning an optional
response, and the chain folds them in source order. -/

/-- Source: shouldClearAwaiting — the context-leakage guard. -/
def shouldClearAwaiting (awaiting : Option Awaiting) (currentIntent : Intent)
    (currentAppliance : Appliance) (message : String) : Bool :=
  match awaiting with
  | none => false
  | some aw =>
    if hasGlobalIntentKeyword message then true
    else if (extractPartNumberFromLinkOrText message).isSome ∨
        (extractModelNumber message).isSome ∨
        (extractOrderId message).isSome ∨ (extractZip message).isSome then
      true
    else if currentIntent = .troubleshooting ∧
        (aw = .install_step ∨ aw = .clamp_type ∨ aw = .panel_fastener ∨
          aw = .connector_latch_side) then
      true
    else if currentAppliance = .refrigerator ∧
        isAwaitingTroubleshoot (some aw) then
      true
    else false

/-- Domain gate of handleChatTurn (source lines 1063–1095), with the
disjuncts in source order. -/
def domainAllowed (message : String) (awaiting : Option Awaiting)
    (partNumber modelNumber : Option String) : Bool :=
  let low := strLower message
  awaiting.isSome ∨ looksLikeSmallTalk message ∨ looksLikeAck message ∨
    wantsHuman message ∨ wantsReturnRefundShipping message ∨
    looksLikeUrl message ∨ (parseYesNo message).isSome ∨
    isInstallQuickReply message ∨
    (norm message = "humming" ∨ norm message = "buzzing" ∨
      norm message = "silent" ∨ norm message = "stuck" ∨
      norm message = "moving") ∨
    containsSub low "dishwasher" ∨ containsSub low "refrigerator" ∨
    containsSub low "fridge" ∨ containsSub low "freezer" ∨
    containsSub low "ice maker" ∨ containsSub low "install" ∨
    containsSub low "compatible" ∨ containsSub low "troubleshoot" ∨
    containsSub low "drain" ∨ containsSub low "pump" ∨
    containsSub low "loop" ∨ containsSub low "air gap" ∨
    containsSub low "sink" ∨ containsSub low "tailpiece" ∨
    containsSub low "disposal" ∨ containsSub low "knockout" ∨
    containsSub low "ps" ∨
    partNumber.isSome ∨ modelNumber.isSome ∨
    (extractOrderId message).isSome ∨ (extractZip message).isSome

/-- Derived per-turn values of handleChatTurn (source lines 1008–1061 and
1112–1116). -/
structure TurnCtx where
  message : String
  history : List ChatMessage
  awaiting : Option Awaiting
  appliance : Appliance
  ents : Entities
  repeats : Nat
  isRepeated : Bool
  intent0 : Intent
  email : Option String
  humanAsked : Bool
  pending : Bool
  metaBase : Meta
deriving Repr

/-- Compute the derived per-turn values: slot reconstruction, the
context-leakage guard, appliance pinning, entity resolution, the three
stickiness rules, the part-plus-model compatibility forcing, and the handoff
bookkeeping. -/
def prepared (message : String) (history : List ChatMessage) : TurnCtx :=
  let awaiting0 := inferDialogState history
  let appliance := inferPinnedAppliance message history
  let ents := resolveEntities message history appliance
  let repeats := countUserRepeatsExcludingCurrent history message
  let isRepeated := decide (1 ≤ repeats)
  let intentRaw := inferIntent message
  let awaiting :=
    if shouldClearAwaiting awaiting0 intentRaw appliance message then none
    else awaiting0
  let shift := isClearIntentShift message
  let i1 :=
    if awaiting.isSome ∧ isAwaitingInstall awaiting ∧ ¬ shift ∧
        (isInstallQuickReply message ∨ intentRaw = .unknown ∨
          looksLikeAck message) then
      Intent.installation_help
    else intentRaw
  let i2 :=
    if awaiting.isSome ∧ isAwaitingTroubleshoot awaiting ∧ ¬ shift ∧
        (i1 = .unknown ∨ looksLikeAck message ∨
          (parseYesNo message).isSome) then
      Intent.troubleshooting
    else i1
  let i3 :=
    if awaiting.isSome ∧ isAwaitingOrder awaiting ∧ ¬ shift ∧
        (i2 = .unknown ∨ looksLikeAck message) then
      Intent.order_support
    else i2
  let i4 :=
    if i3 = .unknown ∧ (extractPartNumberFromLinkOrText message).isSome ∧
        (extractModelNumber message).isSome then
      Intent.compatibility_check
    else i3
  let email := extractEmail message
  let pendingRaw := handoffPending history
  let pending := pendingRaw ∧ ¬ shift ∧ ¬ email.isSome
  { message := message
    history := history
    awaiting := awaiting
    appliance := appliance
    ents := ents
    repeats := repeats
    isRepeated := isRepeated
    intent0 := i4
    email := email
    humanAsked := everRequestedHuman history
    pending := pending
    metaBase :=
      { inDomain := true
        intent := i4
        extracted := ⟨ents.partNumber, ents.modelNumber, appliance⟩
        toolsUsed := []
        sources := [] } }

/-- Build a cardless response from the base meta with an overridden
intent. -/
def mkResp (mb : Meta) (intent : Intent) (reply : String) : ChatResponse :=
  { reply := reply, meta := { mb with intent := intent }, cards := [] }

/-- Out-of-domain redirect response (source lines 1097–1105). -/
def outOfDomainResponse (mb : Meta) : ChatResponse :=
  { reply :=
      "I’m focused on PartSelect refrigerator and dishwasher parts (compatibility, install, troubleshooting, basic order support).\n" ++
      "If you share a PS part number or model number, I can help from there."
    meta := { mb with inDomain := false, intent := .unknown }
    cards := [] }

/-- Ticket-creation response of the email handoff path (source lines
1118–1134; the summary string is assembled in the source but feeds only the
ticket payload, never the visible output). -/
def ticketResponse (rand : Nat) (mb : Meta) : ChatResponse :=
  let tid := createSupportTicketDemo rand
  { reply :=
      "Got it — I opened a support ticket for human follow-up (demo).\n" ++
      "Ticket: " ++ tid ++ "\n\n" ++
      "While you wait, tell me what you want to solve (compatibility, install, or the symptom) and I can keep helping."
    meta :=
      { mb with
        intent := .order_support
        toolsUsed := ["toolCreateSupportTicketDemo"]
        sources := [⟨"Support handoff (demo)", none⟩] }
    cards := [] }

/-- Ack handling keyed on the active slot (source lines 1149–1174). -/
def ackResponse (ctx : TurnCtx) : ChatResponse :=
  let mb := ctx.metaBase
  match ctx.awaiting with
  | some (.order_info ask) => mkResp mb .order_support (replyOrderIntake ask)
  | some .pump_sound =>
    mkResp mb .troubleshooting
      "When it tries to drain, is the pump running, humming/buzzing, or totally silent?"
  | some .dishwasher_drain_speed =>
    mkResp mb .troubleshooting "Which one is it: standing water, or drains slowly?"
  | some .drain_hose_setup =>
    mkResp mb .troubleshooting
      "Do you have a high loop, an air gap, or neither? (And is it connected to the sink tailpiece or garbage disposal?)"
  | some .sink_connection_type =>
    mkResp mb .troubleshooting
      "Are you connected to a garbage disposal, or directly to the sink tailpiece?"
  | some .disposal_flow_yesno =>
    mkResp mb .troubleshooting
      "Do you see strong water flow from the dishwasher when it tries to drain (yes/no)?"
  | some .disposal_knockout_yesno =>
    mkResp mb .troubleshooting
      "Is the disposal knockout plug already removed? (yes/no)"
  | some .tailpiece_gunk_yesno =>
    mkResp mb .troubleshooting
      "If you disconnect the hose at the tailpiece, is it clogged with gunk (yes/no)?"
  | some .did_it_fix_yesno =>
    mkResp mb .troubleshooting
      "After that change, does it drain normally now? (yes/no)"
  | some .install_step =>
    mkResp mb .installation_help "Which step are you on: panel, clamps, or connector?"
  | some .clamp_type =>
    mkResp mb .installation_help "Is it a spring clamp (two tabs) or a screw clamp?"
  | some .panel_fastener =>
    mkResp mb .installation_help "Do you see screws, or plastic clips?"
  | some .connector_latch_side =>
    mkResp mb .installation_help "Is the latch on the top, or on the side?"
  | some .panel_still_wont_drop_yesno =>
    mkResp mb .installation_help
      "Do the screws come out but the panel still won’t drop? (yes/no)"
  | some .connector_moving_or_stuck =>
    mkResp mb .installation_help "Is it moving at all, or totally stuck?"
  | _ =>
    mkResp mb .unknown
      "👍 Okay. Want help with compatibility, installation, troubleshooting, order support, or a PS part number?"

/-! ### Slot follow-up branches (source lines 1184–1471)

Each branch returns none when the source block falls through to the code
after it. -/

/-- Order-info slot (source lines 1184–1193). -/
def orderInfoBranch (ctx : TurnCtx) : Option ChatResponse :=
  match ctx.awaiting with
  | some (.order_info ask) =>
    let oid := extractOrderId ctx.message
    let zip := extractZip ctx.message
    let shift := isClearIntentShift ctx.message
    if ask = .order_id ∧ ¬ oid.isSome ∧ ¬ shift then
      some (mkResp ctx.metaBase .order_support (replyOrderIntake .order_id))
    else if ask = .zip ∧ ¬ zip.isSome ∧ ¬ shift then
      some (mkResp ctx.metaBase .order_support (replyOrderIntake .zip))
    else if ask = .both ∧ (¬ oid.isSome ∨ ¬ zip.isSome) ∧ ¬ shift then
      some (mkResp ctx.metaBase .order_support (replyOrderIntake .both))
    else some (mkResp ctx.metaBase .order_support (replyOrderStub oid zip))
  | _ => none

/-- Drain-speed slot (source lines 1195–1199). -/
def drainSpeedBranch (ctx : TurnCtx) : Option ChatResponse :=
  match ctx.awaiting with
  | some .dishwasher_drain_speed =>
    match parseDrainSpeed ctx.message with
    | some k =>
      some (mkResp ctx.metaBase .troubleshooting
        (troubleshootDishwasherDrainSpeedFollowup k))
    | none =>
      if ¬ isClearIntentShift ctx.message then
        some (mkResp ctx.metaBase .troubleshooting
          "Which one is it: standing water, or drains slowly?")
      else none
  | _ => none

/-- Fridge freezer-warming slot (source lines 1200–1232). -/
def fridgeWarmingBranch (ctx : TurnCtx) : Option ChatResponse :=
  match ctx.awaiting with
  | some .fridge_freezer_warming_yesno =>
    if isClearIntentShift ctx.message then none
    else
      match parseYesNo ctx.message with
      | none =>
        some (mkResp ctx.metaBase .troubleshooting
          "Is the freezer also warming up? (yes/no)")
      | some true =>
        some (mkResp ctx.metaBase .troubleshooting
          ("If BOTH fridge + freezer are warming up, it’s usually a cooling-system issue:\n" ++
           "- Check if the condenser fan is running\n" ++
           "- Clean condenser coils\n" ++
           "- Make sure the compressor is running (low hum/vibration)\n" ++
           "- Check for heavy frost on the freezer back panel (defrost issue)\n\n" ++
           "Do you hear the condenser fan near the bottom/back running? (yes/no)"))
      | some false =>
        some (mkResp ctx.metaBase .troubleshooting
          ("If freezer is OK but fridge is warm, it’s often an airflow issue:\n" ++
           "- Vents blocked by food\n" ++
           "- Damper stuck closed\n" ++
           "- Evaporator fan not running\n\n" ++
           "Do you feel airflow from the fridge vents, and do you hear a small fan inside the freezer? (yes/no)"))
  | _ => none

/-- Response of a settled pump-sound parse with the given tool list. -/
def pumpSoundReply (mb : Meta) (toolsUsed : List String) (ps : PumpSound) :
    ChatResponse :=
  let meta : Meta := { mb with intent := .troubleshooting, toolsUsed := toolsUsed }
  match ps with
  | .humming =>
    { reply :=
        "Humming usually means the pump is trying to run but water isn’t moving.\n" ++
        "Common causes:\n" ++
        "- blockage at filter/sump or pump inlet\n" ++
        "- stuck check valve\n" ++
        "- clogged drain hose / disposal connection\n\n" ++
        "Is there standing water, or does it drain slowly?"
      meta := meta, cards := [] }
  | .running =>
    { reply := troubleshootDishwasherDrainPumpFollowup true
      meta := meta, cards := [] }
  | .silent =>
    { reply := troubleshootDishwasherDrainPumpFollowup false
      meta := meta, cards := [] }
  | .unknown =>
    { reply :=
        "When it tries to drain, is the pump running, humming/buzzing, or totally silent?"
      meta := meta, cards := [] }

/-- Pump-sound slot (source lines 1234–1281): the external classifier result
replaces the local parse only when the local parse is unknown and the
classifier is not. -/
def pumpSoundBranch (apiKey : Option String) (outcome : GroqOutcome)
    (ctx : TurnCtx) : Option ChatResponse :=
  match ctx.awaiting with
  | some .pump_sound =>
    if isClearIntentShift ctx.message then none
    else
      let ps := parsePumpSound ctx.message
      let llm := groqParsePumpSound apiKey outcome
      let usedGroq := ps = .unknown ∧ llm ≠ .unknown
      let ps2 := if ps = .unknown ∧ llm ≠ .unknown then llm else ps
      let toolsUsed :=
        if usedGroq then ctx.metaBase.toolsUsed ++ ["groqParsePumpSound"]
        else ctx.metaBase.toolsUsed
      some (pumpSoundReply ctx.metaBase toolsUsed ps2)
  | _ => none

/-- Drain-hose-setup slot (source lines 1283–1295). -/
def hoseSetupBranch (ctx : TurnCtx) : Option ChatResponse :=
  match ctx.awaiting with
  | some .drain_hose_setup =>
    if isClearIntentShift ctx.message then none
    else
      match parseDrainHoseSetup ctx.message with
      | .unknown =>
        some (mkResp ctx.metaBase .troubleshooting
          "Do you have a high loop, an air gap, or neither? (And is it connected to the sink tailpiece or garbage disposal?)")
      | hs =>
        some (mkResp ctx.metaBase .troubleshooting
          (troubleshootDishwasherHoseSetupFollowup hs))
  | _ => none

/-- Sink-connection slot (source lines 1297–1303). -/
def sinkConnBranch (ctx : TurnCtx) : Option ChatResponse :=
  match ctx.awaiting with
  | some .sink_connection_type =>
    if isClearIntentShift ctx.message then none
    else
      match parseSinkConnectionType ctx.message with
      | .unknown =>
        some (mkResp ctx.metaBase .troubleshooting
          "Are you connected to a garbage disposal, or directly to the sink tailpiece?")
      | k =>
        some (mkResp ctx.metaBase .troubleshooting
          (troubleshootDishwasherSinkConnectionFollowup k))
  | _ => none

/-- Disposal-flow yes/no slot (source lines 1305–1311). -/
def disposalFlowBranch (ctx : TurnCtx) : Option ChatResponse :=
  match ctx.awaiting with
  | some .disposal_flow_yesno =>
    if isClearIntentShift ctx.message then none
    else
      match parseYesNo ctx.message with
      | none =>
        some (mkResp ctx.metaBase .troubleshooting
          "Do you see strong water flow from the dishwasher when it tries to drain (yes/no)?")
      | some b =>
        some (mkResp ctx.metaBase .troubleshooting (replyDisposalFlowYesNo b))
  | _ => none

/-- Disposal-knockout yes/no slot (source lines 1313–1319). -/
def disposalKnockoutBranch (ctx : TurnCtx) : Option ChatResponse :=
  match ctx.awaiting with
  | some .disposal_knockout_yesno =>
    if isClearIntentShift ctx.message then none
    else
      match parseYesNo ctx.message with
      | none =>
        some (mkResp ctx.metaBase .troubleshooting
          "Is the disposal knockout plug already removed? (yes/no)")
      | some b =>
        some (mkResp ctx.metaBase .troubleshooting (replyDisposalKnockoutYesNo b))
  | _ => none

/-- Tailpiece-gunk yes/no slot (source lines 1321–1327). -/
def tailpieceBranch (ctx : TurnCtx) : Option ChatResponse :=
  match ctx.awaiting with
  | some .tailpiece_gunk_yesno =>
    if isClearIntentShift ctx.message then none
    else
      match parseYesNo ctx.message with
      | none =>
        some (mkResp ctx.metaBase .troubleshooting
          "If you disconnect the hose at the tailpiece, is it clogged with gunk (yes/no)?")
      | some b =>
        some (mkResp ctx.metaBase .troubleshooting (replyTailpieceGunkYesNo b))
  | _ => none

/-- Did-it-fix yes/no slot (source lines 1329–1335). -/
def didItFixBranch (ctx : TurnCtx) : Option ChatResponse :=
  match ctx.awaiting with
  | some .did_it_fix_yesno =>
    if isClearIntentShift ctx.message then none
    else
      match parseYesNo ctx.message with
      | none =>
        some (mkResp ctx.metaBase .troubleshooting
          "After that change, does it drain normally now? (yes/no)")
      | some b =>
        some (mkResp ctx.metaBase .troubleshooting (replyDidItFixClose b))
  | _ => none

/-- Choice slot on a failed parse (source lines 1337–1341); a successful
parse falls through with a forced intent, applied in the top-level
dispatcher. -/
def choiceBranch (ctx : TurnCtx) : Option ChatResponse :=
  match ctx.awaiting with
  | some .choice =>
    match parseChoice ctx.message with
    | none =>
      some (mkResp ctx.metaBase .unknown
        "Which one do you want to work on: compatibility, install, or the symptom?")
    | some _ => none
  | _ => none

/-- Panel-fastener slot (source lines 1343–1349). -/
def panelFastenerBranch (ctx : TurnCtx) : Option ChatResponse :=
  match ctx.awaiting with
  | some .panel_fastener =>
    if isClearIntentShift ctx.message then none
    else
      match parsePanelFastener ctx.message with
      | none =>
        some (mkResp ctx.metaBase .installation_help
          "Do you see screws, or plastic clips?")
      | some k =>
        some (mkResp ctx.metaBase .installation_help (replyPanelFastenerHelp k))
  | _ => none

/-- Clamp-type slot (source lines 1351–1373). -/
def clampTypeBranch (ctx : TurnCtx) : Option ChatResponse :=
  match ctx.awaiting with
  | some .clamp_type =>
    if isClearIntentShift ctx.message then none
    else
      match parseClampType ctx.message with
      | none =>
        some (mkResp ctx.metaBase .installation_help
          "Is it a spring clamp (two tabs) or a screw clamp?")
      | some .spring =>
        some (mkResp ctx.metaBase .installation_help
          ("Spring clamp: grab the two tabs with pliers, squeeze to open, slide it back on the hose, then twist the hose gently to break the seal.\n" ++
           "If it’s stuck, a tiny flathead can help gently lift the hose edge (don’t puncture it)."))
      | some .screw =>
        some (mkResp ctx.metaBase .installation_help
          ("Screw clamp: loosen the screw a few turns (don’t remove it), slide the clamp back, then twist the hose to break the seal.\n" ++
           "If the hose won’t budge, wiggle + twist instead of pulling straight."))
  | _ => none

/-- Panel-still-stuck yes/no slot (source lines 1374–1408). -/
def panelStillBranch (ctx : TurnCtx) : Option ChatResponse :=
  match ctx.awaiting with
  | some .panel_still_wont_drop_yesno =>
    if isClearIntentShift ctx.message then none
    else
      match parseYesNo ctx.message with
      | none =>
        some (mkResp ctx.metaBase .installation_help
          "Do the screws come out but the panel still won’t drop? (yes/no)")
      | some true =>
        some (mkResp ctx.metaBase .installation_help
          ("Got it — screws come out but panel won’t drop.\n" ++
           "Most common causes:\n" ++
           "- A hidden clip/retainer near the sides\n" ++
           "- The toe-kick overlaps the access panel (two-piece panel)\n" ++
           "- Panel needs to tilt out first, then slide down\n\n" ++
           "Try this: pull the *bottom edge* slightly toward you to unhook, then slide the panel down.\n" ++
           "Do you see any side clips you can press in? (yes/no)"))
      | some false =>
        some (mkResp ctx.metaBase .installation_help
          ("If screws don’t come out, check:\n" ++
           "- Are they Torx (T15/T20)?\n" ++
           "- Any screws tucked under the very bottom lip/corners?\n" ++
           "- Are you turning the right direction (counter-clockwise)?\n\n" ++
           "Are the screws Torx? (yes/no)"))
  | _ => none

/-- Connector moving-or-stuck slot (source lines 1409–1441). -/
def connectorMovingBranch (ctx : TurnCtx) : Option ChatResponse :=
  match ctx.awaiting with
  | some .connector_moving_or_stuck =>
    if isClearIntentShift ctx.message then none
    else
      match parseMovingOrStuck ctx.message with
      | .unknown =>
        some (mkResp ctx.metaBase .installation_help
          "Is it moving at all, or totally stuck?")
      | .moving =>
        some (mkResp ctx.metaBase .installation_help
          ("If it’s moving, keep steady pressure while holding the latch fully depressed.\n" ++
           "Tip: rock it gently side-to-side (tiny motions) while pulling straight back — don’t yank the wires.\n\n" ++
           "Once it’s off, do you see corrosion/dirt on the pins? (yes/no)"))
      | .stuck =>
        some (mkResp ctx.metaBase .installation_help
          ("Totally stuck usually means the latch isn’t fully released or there’s a secondary lock.\n" ++
           "Try:\n" ++
           "1) Push the connector *in* slightly first (relieves tension)\n" ++
           "2) Press/hold the latch HARD\n" ++
           "3) Pull straight out while wiggling\n" ++
           "4) If safe, use a small flathead to press the latch tab (don’t pry the plastic housing)\n\n" ++
           "Do you have enough access to press the latch firmly, or is it blocked by the frame? (blocked/accessible)"))
  | _ => none

/-- Connector latch-side slot (source lines 1443–1463). -/
def connectorLatchBranch (ctx : TurnCtx) : Option ChatResponse :=
  match ctx.awaiting with
  | some .connector_latch_side =>
    if isClearIntentShift ctx.message then none
    else
      match parseLatchSide ctx.message with
      | some sd =>
        some (mkResp ctx.metaBase .installation_help
          (replyConnectorLatchHelp sd))
      | none =>
        match parseYesNo ctx.message with
        | some true =>
          some (mkResp ctx.metaBase .installation_help
            "Got it — where is the latch: top, or side?")
        | some false =>
          some (mkResp ctx.metaBase .installation_help
            ("If you don’t see a latch, some connectors use a small hidden tab underneath.\n" ++
             "Try feeling for a tab and press it while pulling straight out (don’t pull the wires).\n\n" ++
             "Do you see any small tab on the underside?"))
        | none =>
          some (mkResp ctx.metaBase .installation_help
            "Is the latch on the top, or on the side?")
  | _ => none

/-- Install-step slot (source lines 1465–1471). -/
def installStepBranch (ctx : TurnCtx) : Option ChatResponse :=
  match ctx.awaiting with
  | some .install_step =>
    if isClearIntentShift ctx.message then none
    else
      match detectInstallStepFollowup ctx.history ctx.message with
      | some step =>
        some (mkResp ctx.metaBase .installation_help (replyInstallStepHelp step))
      | none =>
        some (mkResp ctx.metaBase .installation_help
          "Which step are you on: panel, clamps, or connector?")
  | _ => none


/-- Early-return composition: take the first branch that produced a
response. -/
def respOrElse (a b : Option ChatResponse) : Option ChatResponse :=
  match a with
  | some r => some r
  | none => b

/-- The slot branches folded in source order. -/
def slotChain (apiKey : Option String) (outcome : GroqOutcome)
    (ctx : TurnCtx) : Option ChatResponse :=
  respOrElse (orderInfoBranch ctx)
    (respOrElse (drainSpeedBranch ctx)
      (respOrElse (fridgeWarmingBranch ctx)
        (respOrElse (pumpSoundBranch apiKey outcome ctx)
          (respOrElse (hoseSetupBranch ctx)
            (respOrElse (sinkConnBranch ctx)
              (respOrElse (disposalFlowBranch ctx)
                (respOrElse (disposalKnockoutBranch ctx)
                  (respOrElse (tailpieceBranch ctx)
                    (respOrElse (didItFixBranch ctx)
                      (respOrElse (choiceBranch ctx)
                        (respOrElse (panelFastenerBranch ctx)
                          (respOrElse (clampTypeBranch ctx)
                            (respOrElse (panelStillBranch ctx)
                              (respOrElse (connectorMovingBranch ctx)
                                (respOrElse (connectorLatchBranch ctx)
                                  (installStepBranch ctx))))))))))))))))

/-! ### Top-level intent handlers (source lines 1473–1613) -/

/-- Card built from a catalog part (source part cards). -/
def partCard (p : CatalogPart) : Card :=
  ⟨p.partNumber, p.name, p.price, p.imageUrl, p.compatibleModels⟩

/-- Intent forced by a parsed choice answer (source line 1340). -/
def choiceIntent : ChoiceKind → Intent
  | .compatibility => .compatibility_check
  | .install => .installation_help
  | .symptom => .troubleshooting

/-- Top-level intent dispatch after the slot branches have fallen through
(source lines 1473–1613).  A successfully parsed choice answer replaces the
resolved intent, as the choice handler mutates it in the source. -/
def topLevel (env : Env) (ctx : TurnCtx) : ChatResponse :=
  let mb := ctx.metaBase
  let intentFinal :=
    match ctx.awaiting, parseChoice ctx.message with
    | some .choice, some c => choiceIntent c
    | _, _ => ctx.intent0
  if intentFinal = .order_support then
    let orderId := extractOrderId ctx.message
    let zip := extractZip ctx.message
    if ¬ orderId.isSome ∧ ¬ zip.isSome ∧
        wantsReturnRefundShipping ctx.message then
      mkResp mb .order_support (replyOrderIntake .both)
    else if orderId.isSome ∨ zip.isSome then
      mkResp mb .order_support (replyOrderStub orderId zip)
    else
      { reply :=
          "I can help with basic order questions in this demo.\n" ++
          "If you want a human follow-up, say “human” and send your email — I’ll open a demo ticket.\n" ++
          "If it’s about shipping/return, include order number + ZIP."
        meta := mb, cards := [] }
  else if intentFinal = .compatibility_check then
    match ctx.ents.partNumber, ctx.ents.modelNumber with
    | none, none =>
      mkResp mb .compatibility_check
        "Send the part number (PS…) and your model number, and I’ll check compatibility."
    | none, some _ =>
      mkResp mb .compatibility_check
        "What’s the part number (PS… or PartSelect link)?"
    | some _, none =>
      mkResp mb .compatibility_check "What’s your model number?"
    | some pn, some mn =>
      let r := toolCheckCompatibility env.compat env.parts pn mn
      let reply :=
        match r.compatible with
        | some true => "Yes — " ++ pn ++ " looks compatible with " ++ mn ++ "."
        | some false =>
          "No — " ++ pn ++ " doesn’t look compatible with " ++ mn ++
            " in this demo catalog."
        | none =>
          "I can’t confirm compatibility for " ++ pn ++ " with " ++ mn ++
            " from the current demo index."
      { reply := reply ++ "\nWant install steps, or are you troubleshooting a symptom?"
        meta :=
          { mb with
            intent := .compatibility_check
            toolsUsed := ["toolCheckCompatibility"]
            sources := r.sources }
        cards := [] }
  else if intentFinal = .installation_help then
    match ctx.ents.partNumber with
    | none =>
      { reply :=
          "What’s the full PartSelect part number (starts with PS…) or paste the PartSelect link?"
        meta := mb, cards := [] }
    | some pn =>
      let gs := toolSearchGuides env.guides ctx.message ctx.appliance
        (some .install) 2
      let snippet := strTrim ((gs.guides.head?.map Guide.snippet).getD "")
      let looksUseless :=
        snippet = "" ∨ strLower snippet = "see guide for details." ∨
          strLower snippet = "steps available in guide." ∨ snippet.length < 12
      let meta : Meta :=
        { mb with
          intent := .installation_help
          toolsUsed := ["toolSearchGuides"]
          sources := gs.sources }
      if looksUseless then
        let reply :=
          if ctx.isRepeated then
            compactInstallRepeatVariant pn ctx.ents.modelNumber ctx.repeats
          else compactInstallSteps pn ctx.ents.modelNumber
        { reply := reply, meta := meta, cards := [] }
      else
        let modelPart :=
          match ctx.ents.modelNumber with
          | some m => " (" ++ m ++ ")"
          | none => ""
        let brief :=
          "For " ++ pn ++ modelPart ++ ", a key step is usually:\n" ++
          String.mk ((collapseWsAux false snippet.data).take 220) ++
          (if 220 < snippet.length then "…" else "") ++ "\n\n" ++
          "Which step are you on: panel, clamps, or connector?"
        { reply := brief, meta := meta, cards := [] }
  else if intentFinal = .troubleshooting then
    if ctx.appliance = .dishwasher then
      mkResp mb .troubleshooting
        (troubleshootDishwasher ctx.ents.modelNumber ctx.isRepeated)
    else
      let t := strLower ctx.message
      let topicIce :=
        containsSub t "ice maker" ∨ containsSub t "icemaster" ∨
          containsSub t "ice maker not working"
      let reply :=
        if topicIce then
          "Ice maker not working — quick checks:\n- Water valve open and line not kinked\n- Freezer is cold enough (around 0°F)\n- Fill tube not frozen; replace filter if overdue\n\nIf you have it, what’s the fridge model number?"
        else
          "Fridge not cooling well — quick checks:\n- Vents not blocked by food\n- Clean condenser coils\n- Check whether the condenser fan is running\n\nIs the freezer also warming up?"
      mkResp mb .troubleshooting reply
  else if intentFinal = .part_lookup then
    match extractPartNumberFromLinkOrText ctx.message with
    | none =>
      { reply :=
          "If you want to look up a part, paste the full PS part number (PS + 5–10 digits) or the PartSelect link."
        meta := mb, cards := [] }
    | some explicitPart =>
      let r := toolLookupPart env.parts explicitPart
      let meta : Meta :=
        { mb with
          intent := .part_lookup
          toolsUsed := ["toolLookupPart"]
          sources := r.sources }
      match r.part with
      | none =>
        { reply :=
            "I can’t find " ++ explicitPart ++
              " in the demo catalog. If you paste the PartSelect link, I can still help with install/troubleshooting."
          meta := meta, cards := [] }
      | some p =>
        if wantsAlternatives ctx.message then
          { reply :=
              (match ctx.ents.modelNumber with
                | some m => "For " ++ m ++ ", "
                | none => "") ++
              "this demo doesn’t have a real cross-reference “alternatives” catalog.\n\n" ++
              "What I can do instead:\n" ++
              "- help you find same-category parts that list your model\n" ++
              "- tell you what specs to match (connector, mounting, hose size)\n" ++
              "- talk through OEM vs aftermarket trade-offs"
            meta := meta, cards := [partCard p] }
        else
          { reply :=
              "Found it: " ++ p.partNumber ++ " — " ++ p.name ++ ".\n" ++
              (match ctx.ents.modelNumber with
                | some m =>
                  "Want me to check it against your model (" ++ m ++ ")?"
                | none =>
                  "If you share your model number, I can check compatibility.")
            meta := meta, cards := [partCard p] }
  else
    { reply := replyHome, meta := mb, cards := [] }

/-- The dispatch below the handoff gates: the ask-email path, ack handling,
the small-talk home reply, then the slot chain and the top-level handlers
(source lines 1136–1613). -/
def afterHandoff (env : Env) (ctx : TurnCtx) : ChatResponse :=
  if wantsHuman ctx.message ∨ ctx.pending then
    mkResp ctx.metaBase .order_support
      ("Sure — I can set up a human follow-up (demo ticket).\n" ++
       "Just send your email in the next message.\n" ++
       "Example: \"name@email.com WDT780SAEM1 PS11752778\"")
  else if looksLikeAck ctx.message then ackResponse ctx
  else if looksLikeSmallTalk ctx.message ∧ ctx.awaiting = none then
    { reply := replyHome
      meta := { ctx.metaBase with intent := .unknown, inDomain := true }
      cards := [] }
  else
    match slotChain env.groqApiKey env.groqOutcome ctx with
    | some r => r
    | none => topLevel env ctx

/-- Dispatch a prepared turn: the domain gate, the incomplete-part ask, the
email-handoff ticket path, then the rest of the chain (source lines
1063–1134 feed the first half). -/
def respond (env : Env) (ctx : TurnCtx) : ChatResponse :=
  if ¬ domainAllowed ctx.message ctx.awaiting ctx.ents.partNumber
      ctx.ents.modelNumber then
    outOfDomainResponse ctx.metaBase
  else if ctx.ents.hasIncompletePart then
    { reply := replyAskForFullPart ctx.ents.shortPart
      meta := ctx.metaBase, cards := [] }
  else
    match ctx.email with
    | some _ =>
      if ctx.humanAsked ∨ ctx.pending ∨ wantsHuman ctx.message then
        ticketResponse env.rand ctx.metaBase
      else afterHandoff env ctx
    | none => afterHandoff env ctx

/-- Source: handleChatTurn — the single inbound operation, a pure function
of the message, the history, and the environment oracles. -/
def handleChatTurn (env : Env) (message : String)
    (history : List ChatMessage) : ChatResponse :=
  respond env (prepared message history)

/-! ## Claim-specific definitions -/

deriving instance Fintype for OrderAsk
deriving instance Fintype for Awaiting
deriving instance Fintype for Intent
deriving instance Fintype for Appliance

/-- Majority vote over recent turns, per the specification wording of the
appliance-pinning fallback: the appliance with strictly more votes wins and
a tie returns unknown. -/
def majorityVoteAppliance (recent : List ChatMessage) : Appliance :=
  let dw := (recent.filter
    (fun t => inferApplianceFromText t.content = Appliance.dishwasher)).length
  let rf := (recent.filter
    (fun t => inferApplianceFromText t.content = Appliance.refrigerator)).length
  if dw > rf then .dishwasher else if rf > dw then .refrigerator else .unknown

/-- Modelled from the claim wording of C2 for comparison with the source:
clear on a global intent keyword, any strong entity, a troubleshooting raw
intent while the slot belongs to the installation family as defined by
isAwaitingInstall, or a refrigerator appliance while the slot is a
dishwasher-troubleshooting micro-flow slot. -/
def shouldClearSlotSpec (slot : Awaiting) (rawIntent : Intent)
    (appliance : Appliance) (message : String) : Bool :=
  hasGlobalIntentKeyword message ∨
    (extractPartNumberFromLinkOrText message).isSome ∨
    (extractModelNumber message).isSome ∨
    (extractOrderId message).isSome ∨ (extractZip message).isSome ∨
    (rawIntent = .troubleshooting ∧ isAwaitingInstall (some slot)) ∨
    (appliance = .refrigerator ∧ isAwaitingTroubleshoot (some slot))

/-- The claim wording of C2 amended: the installation family of the
troubleshooting-clearing rule is only the four original installation slots,
not the two newer yes/no follow-ups. -/
def shouldClearSlotSpecAmended (slot : Awaiting) (rawIntent : Intent)
    (appliance : Appliance) (message : String) : Bool :=
  hasGlobalIntentKeyword message ∨
    (extractPartNumberFromLinkOrText message).isSome ∨
    (extractModelNumber message).isSome ∨
    (extractOrderId message).isSome ∨ (extractZip message).isSome ∨
    (rawIntent = .troubleshooting ∧
      (slot = .install_step ∨ slot = .clamp_type ∨ slot = .panel_fastener ∨
        slot = .connector_latch_side)) ∨
    (appliance = .refrigerator ∧ isAwaitingTroubleshoot (some slot))

/-- Environment with empty datasets, a zero random draw, no classifier
credential and a timed-out classifier request. -/
def env0 : Env := ⟨[], [], [], 0, none, .timeout⟩

/-- Environment equal to env0 except for the random draw. -/
def env1 : Env := ⟨[], [], [], 1, none, .timeout⟩

/-- The canonical install-step question asked by the assistant. -/
def installStepQuestion : String :=
  "Which step are you on: panel, clamps, or connector?"

/-- The clamp-help follow-up reply of the install-step handler. -/
def clampsHelpReply : String :=
  "For hose clamps: pliers help — squeeze, slide the clamp back, then twist the hose gently to break the seal. " ++
  "Avoid yanking straight (it can tear the hose). " ++
  "Is it a spring clamp (two tabs) or a screw clamp?"

/-- The latch question of the connector flow, as produced by
replyInstallStepHelp for the connector step. -/
def latchQuestion : String := "Do you see a latch on the top or side?"

/-- The re-ask text of the connector_latch_side slot handler. -/
def latchReask : String := "Is the latch on the top, or on the side?"

/-- History whose most recent assistant turn asks the latch question. -/
def latchHistory : List ChatMessage := [⟨.assistant, latchQuestion⟩]

/-- History of a human-handoff conversation: the user asked for a human and
the assistant asked for an email. -/
def handoffHistory : List ChatMessage :=
  [⟨.user, "i want to talk to a human"⟩,
   ⟨.assistant,
     "Sure — I can set up a human follow-up (demo ticket).\n" ++
     "Just send your email in the next message.\n" ++
     "Example: \"name@email.com WDT780SAEM1 PS11752778\""⟩]

/-- The out-of-domain probe input of the domain-gate claim. -/
def weatherMessage : String := "what\x27s the weather today"

/-- A PS token string built from a digit list. -/
def psString (ds : List Char) : String := String.mk ('P' :: 'S' :: ds)

/-- Character immediately preceding a scan position that sits after the
prefix pre, when the character before the whole scanned list is prev. -/
def lastCharOpt (prev : Option Char) (pre : List Char) : Option Char :=
  match pre.getLast? with
  | some c => some c
  | none => prev

/-- The compatibility probe message of the tri-state claim. -/
def c5Message : String := "is PS11752778 compatible with my WDT780SAEM1"

/-- The affirmative compatibility phrasing at the probe entities. -/
def c5YesReply : String :=
  "Yes — PS11752778 looks compatible with WDT780SAEM1.\nWant install steps, or are you troubleshooting a symptom?"

/-- The negative compatibility phrasing at the probe entities. -/
def c5NoReply : String :=
  "No — PS11752778 doesn’t look compatible with WDT780SAEM1 in this demo catalog.\nWant install steps, or are you troubleshooting a symptom?"

/-- The indeterminate compatibility phrasing at the probe entities. -/
def c5CantReply : String :=
  "I can’t confirm compatibility for PS11752778 with WDT780SAEM1 from the current demo index.\nWant install steps, or are you troubleshooting a symptom?"

/-! ## Theorems for the claims -/

/-- Claim C4: appliance pinning — the keyword classifier on the current
message wins outright when it is decisive; otherwise the last 8 user turns
are classified independently and a strict majority wins, ties giving
unknown; and the dishwasher signal set is checked first, so a text carrying
any dishwasher signal classifies as dishwasher regardless of refrigerator
signals. -/
theorem c4_appliance_pinning :
    (∀ m h, inferApplianceFromText m ≠ .unknown →
      inferPinnedAppliance m h = inferApplianceFromText m) ∧
    (∀ m h, inferApplianceFromText m = .unknown →
      inferPinnedAppliance m h = majorityVoteAppliance (lastNUser h 8)) ∧
    (∀ t, (containsSub (strLower t) "dishwasher" ∨
        containsSub (strLower t) "wdt" ∨ containsSub (strLower t) "kdf" ∨
        containsSub (strLower t) "not draining" ∨
        containsSub (strLower t) "drain" ∨
        containsSub (strLower t) "spray arm" ∨
        containsSub (strLower t) "sump" ∨
        containsSub (strLower t) "air gap" ∨
        containsSub (strLower t) "high loop") →
      inferApplianceFromText t = .dishwasher) := by
  refine ⟨?_, ?_, ?_⟩
  · intro m h hm
    unfold inferPinnedAppliance
    simp [hm]
  · intro m h hm
    unfold inferPinnedAppliance majorityVoteAppliance
    simp only [hm, ne_eq, not_true_eq_false, if_false, ite_false]
    split_ifs <;> first | rfl | omega
  · intro t ht
    unfold inferApplianceFromText
    rw [if_pos ht]

/-- Witness for C4 at concrete inputs: a decisive current message, a
majority-vote history, and a text carrying both appliance signal sets. -/
theorem c4_appliance_pinning_witness :
    (inferApplianceFromText "my fridge is warm" ≠ .unknown ∧
      inferPinnedAppliance "my fridge is warm" [] =
        inferApplianceFromText "my fridge is warm") ∧
    (inferApplianceFromText "humming" = .unknown ∧
      inferPinnedAppliance "humming"
          [⟨.user, "My dishwasher is not draining"⟩, ⟨.user, "yes"⟩] =
        majorityVoteAppliance
          (lastNUser [⟨.user, "My dishwasher is not draining"⟩,
            ⟨.user, "yes"⟩] 8)) ∧
    inferApplianceFromText "dishwasher next to the fridge" = .dishwasher :=
  ⟨⟨by decide,
      c4_appliance_pinning.1 "my fridge is warm" [] (by decide)⟩,
    ⟨by decide,
      c4_appliance_pinning.2.1 "humming"
        [⟨.user, "My dishwasher is not draining"⟩, ⟨.user, "yes"⟩]
        (by decide)⟩,
    c4_appliance_pinning.2.2 "dishwasher next to the fridge"
      (by decide)⟩

/-- Claim C2 counterexample: the panel_still_wont_drop_yesno slot belongs to
the installation family as defined by isAwaitingInstall, and the message
carries a troubleshooting raw intent with no global keyword and no strong
entity, so the claim says the slot is cleared — but shouldClearAwaiting
keeps it, because the troubleshooting-clearing rule lists only the four
original installation slots. -/
theorem c2_counterexample :
    isAwaitingInstall (some Awaiting.panel_still_wont_drop_yesno) = true ∧
    inferIntent "it leaks water" = .troubleshooting ∧
    shouldClearSlotSpec .panel_still_wont_drop_yesno .troubleshooting
      .unknown "it leaks water" = true ∧
    shouldClearAwaiting (some .panel_still_wont_drop_yesno) .troubleshooting
      .unknown "it leaks water" = false := by
  refine ⟨rfl, by decide, by decide, by decide⟩

/-- Claim C2 amended: for every active slot, shouldClearAwaiting returns
true exactly when the message carries a global intent keyword or any strong
entity, or the raw intent is troubleshooting while the slot is one of the
four original installation slots (install_step, clamp_type, panel_fastener,
connector_latch_side — not the two newer install yes/no follow-ups), or the
appliance resolves to refrigerator while the slot is a
dishwasher-troubleshooting micro-flow slot; and false otherwise. -/
theorem c2_slot_clearing_amended :
    ∀ (slot : Awaiting) (rawIntent : Intent) (appliance : Appliance)
      (message : String),
      shouldClearAwaiting (some slot) rawIntent appliance message =
        shouldClearSlotSpecAmended slot rawIntent appliance message := by
  intro slot i a m
  unfold shouldClearAwaiting shouldClearSlotSpecAmended
  generalize hasGlobalIntentKeyword m = b1
  generalize (extractPartNumberFromLinkOrText m).isSome = b2
  generalize (extractModelNumber m).isSome = b3
  generalize (extractOrderId m).isSome = b4
  generalize (extractZip m).isSome = b5
  revert b1 b2 b3 b4 b5
  revert slot i a
  decide

/-! ### Oracle-independence helper lemmas -/

/-- The pump-sound branch is inert unless the pump_sound slot is active. -/
theorem pumpSoundBranch_not_pump (k : Option String) (o : GroqOutcome)
    (ctx : TurnCtx) (h : ctx.awaiting ≠ some .pump_sound) :
    pumpSoundBranch k o ctx = none := by
  cases haw : ctx.awaiting with
  | none => simp [pumpSoundBranch, haw]
  | some aw =>
    cases aw <;> simp [pumpSoundBranch, haw]
    exact absurd haw h

/-- The slot chain ignores the classifier oracle unless the pump_sound slot
is active. -/
theorem slotChain_groq_free (k1 k2 : Option String) (o1 o2 : GroqOutcome)
    (ctx : TurnCtx) (h : ctx.awaiting ≠ some .pump_sound) :
    slotChain k1 o1 ctx = slotChain k2 o2 ctx := by
  unfold slotChain
  rw [pumpSoundBranch_not_pump k1 o1 ctx h, pumpSoundBranch_not_pump k2 o2 ctx h]

/-- The top-level handlers depend on the environment only through the three
datasets. -/
theorem topLevel_env_free (e1 e2 : Env) (ctx : TurnCtx)
    (hc : e1.compat = e2.compat) (hp : e1.parts = e2.parts)
    (hg : e1.guides = e2.guides) : topLevel e1 ctx = topLevel e2 ctx := by
  unfold topLevel
  rw [hc, hp, hg]

/-- Below the handoff gates, the dispatch depends on the environment only
through the datasets when the pump_sound slot is not active. -/
theorem afterHandoff_env_free (e1 e2 : Env) (ctx : TurnCtx)
    (hc : e1.compat = e2.compat) (hp : e1.parts = e2.parts)
    (hg : e1.guides = e2.guides) (h : ctx.awaiting ≠ some .pump_sound) :
    afterHandoff e1 ctx = afterHandoff e2 ctx := by
  unfold afterHandoff
  rw [slotChain_groq_free e1.groqApiKey e2.groqApiKey e1.groqOutcome
    e2.groqOutcome ctx h, topLevel_env_free e1 e2 ctx hc hp hg]

/-- Full dispatch ignores the classifier oracle when the pump_sound slot is
not active and the random draw is shared. -/
theorem respond_groq_free (e1 e2 : Env) (ctx : TurnCtx)
    (hc : e1.compat = e2.compat) (hp : e1.parts = e2.parts)
    (hg : e1.guides = e2.guides) (hr : e1.rand = e2.rand)
    (h : ctx.awaiting ≠ some .pump_sound) :
    respond e1 ctx = respond e2 ctx := by
  simp only [respond, hr, afterHandoff_env_free e1 e2 ctx hc hp hg h]

/-- Full dispatch ignores both oracles when the message carries no email
(so no ticket is created) and the pump_sound slot is not active. -/
theorem respond_oracle_free (e1 e2 : Env) (ctx : TurnCtx)
    (hc : e1.compat = e2.compat) (hp : e1.parts = e2.parts)
    (hg : e1.guides = e2.guides) (hmail : ctx.email = none)
    (h : ctx.awaiting ≠ some .pump_sound) :
    respond e1 ctx = respond e2 ctx := by
  simp only [respond, hmail, afterHandoff_env_free e1 e2 ctx hc hp hg h]

/-- The prepared email field is the extractor on the message. -/
theorem prepared_email (m : String) (h : List ChatMessage) :
    (prepared m h).email = extractEmail m := rfl

/-- The prepared slot is never pump_sound when reconstruction did not yield
pump_sound (clearing can only remove a slot). -/
theorem prepared_awaiting_ne_pump (m : String) (h : List ChatMessage)
    (hp : inferDialogState h ≠ some .pump_sound) :
    (prepared m h).awaiting ≠ some .pump_sound := by
  unfold prepared
  dsimp only
  split
  · simp
  · exact hp

/-- The router ignores the classifier oracle whenever the reconstructed slot
is not pump_sound, given equal datasets and an equal random draw. -/
theorem handleChatTurn_groq_free (e1 e2 : Env) (m : String)
    (h : List ChatMessage) (hc : e1.compat = e2.compat)
    (hp : e1.parts = e2.parts) (hg : e1.guides = e2.guides)
    (hr : e1.rand = e2.rand) (hpump : inferDialogState h ≠ some .pump_sound) :
    handleChatTurn e1 m h = handleChatTurn e2 m h := by
  unfold handleChatTurn
  exact respond_groq_free e1 e2 (prepared m h) hc hp hg hr
    (prepared_awaiting_ne_pump m h hpump)

/-- The router ignores both oracles whenever the message carries no email
and the reconstructed slot is not pump_sound, given equal datasets. -/
theorem handleChatTurn_oracle_free (e1 e2 : Env) (m : String)
    (h : List ChatMessage) (hc : e1.compat = e2.compat)
    (hp : e1.parts = e2.parts) (hg : e1.guides = e2.guides)
    (hmail : extractEmail m = none)
    (hpump : inferDialogState h ≠ some .pump_sound) :
    handleChatTurn e1 m h = handleChatTurn e2 m h := by
  unfold handleChatTurn
  exact respond_oracle_free e1 e2 (prepared m h) hc hp hg
    (by rw [prepared_email]; exact hmail)
    (prepared_awaiting_ne_pump m h hpump)

set_option maxRecDepth 4000 in
/-- Claim C7 counterexample: on the human-handoff path the reply embeds a
demo ticket id built from a fresh Math.random draw, so two calls of the
router on the identical (message, history) pair can return different
replies — here the two possible draws 0 and 1 produce different outputs,
refuting the claimed idempotence on every path. -/
theorem c7_counterexample :
    handleChatTurn env0 "name@email.com" handoffHistory ≠
      handleChatTurn env1 "name@email.com" handoffHistory := by decide

/-- Claim C7 amended: with the sampled ticket number and the external
classifier response held fixed, the router is a pure function of (message,
history): for any two environments sharing the datasets, the outputs agree
whenever the turn neither carries an email (so no demo ticket is created)
nor has the pump_sound slot active (so the classifier is never consulted);
only those two paths depend on the oracles. -/
theorem c7_determinism_modulo_oracles :
    ∀ (e1 e2 : Env) (m : String) (h : List ChatMessage),
      e1.compat = e2.compat → e1.parts = e2.parts → e1.guides = e2.guides →
      extractEmail m = none → inferDialogState h ≠ some .pump_sound →
      handleChatTurn e1 m h = handleChatTurn e2 m h :=
  fun e1 e2 m h hc hp hg hmail hpump =>
    handleChatTurn_oracle_free e1 e2 m h hc hp hg hmail hpump

/-- Witness for C7 at a concrete input: two environments differing in the
random draw, the credential and the classifier outcome give the same
response on a plain acknowledgement turn. -/
theorem c7_determinism_modulo_oracles_witness :
    extractEmail "ok" = none ∧
    inferDialogState ([] : List ChatMessage) ≠ some .pump_sound ∧
    handleChatTurn env0 "ok" [] =
      handleChatTurn ⟨[], [], [], 7, some "key", .ok (some "humming")⟩
        "ok" [] :=
  ⟨by decide, by decide,
    c7_determinism_modulo_oracles env0
      ⟨[], [], [], 7, some "key", .ok (some "humming")⟩ "ok" []
      rfl rfl rfl (by decide) (by decide)⟩

/-- Claim C9: the external classifier adapter returns unknown immediately
without a credential; timeout, a failing status, and an unparseable body all
return unknown; any returned value outside the closed set running, humming,
silent normalizes to unknown; the pump-sound handler substitutes the
classifier result only when the local parse is unknown (a decisive local
parse makes the branch independent of the classifier, and a classifier
unknown leaves the local parse in charge); and the router consults the
classifier only inside the pump_sound slot handler. -/
theorem c9_classifier_fallback :
    (∀ o, groqParsePumpSound none o = .unknown) ∧
    (∀ k, groqParsePumpSound (some k) .timeout = .unknown ∧
      groqParsePumpSound (some k) .httpFail = .unknown ∧
      groqParsePumpSound (some k) (.ok none) = .unknown) ∧
    (∀ k s, groqParsePumpSound (some k) (.ok (some s)) ≠ .unknown →
      strTrim (strLower s) = "running" ∨ strTrim (strLower s) = "humming" ∨
        strTrim (strLower s) = "silent") ∧
    (∀ (k k2 : Option String) (o o2 : GroqOutcome) (ctx : TurnCtx),
      parsePumpSound ctx.message ≠ .unknown →
      pumpSoundBranch k o ctx = pumpSoundBranch k2 o2 ctx) ∧
    (∀ (k : Option String) (o : GroqOutcome) (ctx : TurnCtx),
      ctx.awaiting = some .pump_sound →
      isClearIntentShift ctx.message = false →
      groqParsePumpSound k o = .unknown →
      pumpSoundBranch k o ctx =
        some (pumpSoundReply ctx.metaBase ctx.metaBase.toolsUsed
          (parsePumpSound ctx.message))) ∧
    (∀ (e1 e2 : Env) (m : String) (h : List ChatMessage),
      e1.compat = e2.compat → e1.parts = e2.parts → e1.guides = e2.guides →
      e1.rand = e2.rand → inferDialogState h ≠ some .pump_sound →
      handleChatTurn e1 m h = handleChatTurn e2 m h) := by
  refine ⟨?_, ?_, ?_, ?_, ?_, ?_⟩
  · intro o; rfl
  · intro k; exact ⟨rfl, rfl, rfl⟩
  · intro k s hne
    unfold groqParsePumpSound normalizePumpSound at hne
    simp only [Option.getD_some] at hne
    split_ifs at hne with h1 h2 h3
    · exact Or.inl h1
    · exact Or.inr (Or.inl h2)
    · exact Or.inr (Or.inr h3)
    · exact absurd rfl hne
  · intro k k2 o o2 ctx hps
    cases haw : ctx.awaiting with
    | none => simp [pumpSoundBranch, haw]
    | some aw => cases aw <;> simp [pumpSoundBranch, haw, hps]
  · intro k o ctx haw hshift hllm
    simp [pumpSoundBranch, haw, hshift, hllm]
  · exact fun e1 e2 m h hc hp hg hr hpump =>
      handleChatTurn_groq_free e1 e2 m h hc hp hg hr hpump

/-- Witness for C9 at concrete inputs: a whitelisted classifier value passes
through the closed set, and a decisive local parse makes the branch
classifier-independent. -/
theorem c9_classifier_fallback_witness :
    (groqParsePumpSound (some "key") (.ok (some " Running ")) ≠ .unknown ∧
      (strTrim (strLower " Running ") = "running" ∨
        strTrim (strLower " Running ") = "humming" ∨
        strTrim (strLower " Running ") = "silent")) ∧
    (parsePumpSound (prepared "humming" []).message ≠ .unknown ∧
      pumpSoundBranch none .timeout (prepared "humming" []) =
        pumpSoundBranch (some "key") (.ok (some "silent"))
          (prepared "humming" [])) :=
  ⟨⟨by decide,
      c9_classifier_fallback.2.2.1 "key" " Running " (by decide)⟩,
    ⟨by decide,
      c9_classifier_fallback.2.2.2.1 none (some "key") .timeout
        (.ok (some "silent")) (prepared "humming" []) (by decide)⟩⟩

/-! ### Scanner lemmas for the part-number claims -/

/-- A digit is not a lower-case letter. -/
theorem digit_not_lower (c : Char) (h : c.isDigit = true) :
    ¬ ('a' ≤ c ∧ c ≤ 'z') := by
  intro hc
  simp only [Char.isDigit, Bool.and_eq_true, decide_eq_true_eq] at h
  have h1 := hc.1
  rw [Char.le_def, UInt32.le_def, BitVec.le_def] at h1
  have hd2 : c.val ≤ 57 := h.2
  rw [UInt32.le_def, BitVec.le_def] at hd2
  simp at h1 hd2
  omega

/-- Upper-casing fixes digits. -/
theorem upChar_digit (c : Char) (h : c.isDigit = true) : upChar c = c := by
  unfold upChar
  rw [if_neg (digit_not_lower c h)]

/-- A digit is not the letter P. -/
theorem digit_ne_P (c : Char) (h : c.isDigit = true) : c ≠ 'P' := by
  intro he
  subst he
  exact absurd h (by decide)

/-- The digit prefix of an all-digit list is the whole list. -/
theorem digitTake_all (l : List Char) (h : ∀ c ∈ l, c.isDigit = true) :
    digitTake l = l := by
  induction l with
  | nil => rfl
  | cons c rest ih =>
    simp only [digitTake, h c (List.mem_cons_self c rest), if_true]
    rw [ih (fun x hx => h x (List.mem_cons_of_mem c hx))]

/-- No match attempt succeeds at a position not holding the letter P. -/
theorem psMatchAt_ne_P (lo hi : Nat) (prev : Option Char) (c : Char)
    (rest : List Char) (hc : c ≠ 'P') :
    psMatchAt lo hi prev (c :: rest) = none := by
  unfold psMatchAt
  split
  · rename_i heq
    injection heq with e1 _
    exact absurd e1 hc
  · rfl

/-- Unfolding equation of the scanner on a non-empty list. -/
theorem findPS_cons (lo hi : Nat) (prev : Option Char) (c : Char)
    (rest : List Char) :
    findPS lo hi prev (c :: rest) =
      match psMatchAt lo hi prev (c :: rest) with
      | some t => some t
      | none => findPS lo hi (some c) rest := rfl

/-- The scanner fails on text containing no letter P. -/
theorem findPS_no_P (lo hi : Nat) (l : List Char) :
    ∀ prev, (∀ c ∈ l, c ≠ 'P') → findPS lo hi prev l = none := by
  induction l with
  | nil => intro prev _; rfl
  | cons c rest ih =>
    intro prev h
    rw [findPS_cons, psMatchAt_ne_P lo hi prev c rest
      (h c (List.mem_cons_self c rest))]
    exact ih (some c) (fun x hx => h x (List.mem_cons_of_mem c hx))

/-- Every character of the digit prefix is a digit. -/
theorem digitTake_digits (l : List Char) :
    ∀ c ∈ digitTake l, c.isDigit = true := by
  induction l with
  | nil => intro c hc; cases hc
  | cons c rest ih =>
    intro x hx
    unfold digitTake at hx
    by_cases hd : c.isDigit = true
    · rw [if_pos hd] at hx
      rcases List.mem_cons.mp hx with h | h
      · rw [h]; exact hd
      · exact ih x h
    · rw [if_neg hd] at hx
      cases hx

/-- Decomposition of a list at its digit prefix. -/
theorem digitTake_decomp (l : List Char) :
    l = digitTake l ++ l.drop (digitTake l).length := by
  induction l with
  | nil => rfl
  | cons c rest ih =>
    unfold digitTake
    by_cases hd : c.isDigit = true
    · rw [if_pos hd]
      simp only [List.length_cons, List.cons_append, List.drop_succ_cons]
      exact congrArg (c :: ·) ih
    · rw [if_neg hd]
      rfl

/-- The character before a position, shifted across a consumed character. -/
theorem lastCharOpt_cons (prev : Option Char) (c : Char) (pre : List Char) :
    lastCharOpt prev (c :: pre) = lastCharOpt (some c) pre := by
  cases pre with
  | nil => rfl
  | cons d tl =>
    unfold lastCharOpt
    rw [List.getLast?_cons_cons]
    cases hg : (d :: tl).getLast? with
    | some x => simp only [hg]
    | none => simp at hg

/-- Soundness of the PS scanner: a successful scan returns a PS token with
lo–hi digits that occurs in the text between word boundaries. -/
theorem findPS_sound (lo hi : Nat) (l : List Char) :
    ∀ (prev : Option Char) (t : List Char),
      findPS lo hi prev l = some t →
      ∃ pre ds post, l = pre ++ ('P' :: 'S' :: ds) ++ post ∧
        t = 'P' :: 'S' :: ds ∧ (∀ c ∈ ds, c.isDigit = true) ∧
        lo ≤ ds.length ∧ ds.length ≤ hi ∧
        boundaryBefore (lastCharOpt prev pre) = true ∧
        boundaryAfter post = true := by
  induction l with
  | nil => intro prev t h; cases h
  | cons c rest ih =>
    intro prev t h
    rw [findPS_cons] at h
    rcases hm : psMatchAt lo hi prev (c :: rest) with _ | t2
    · rw [hm] at h
      obtain ⟨pre, ds, post, hl, ht, hds, hlo, hhi, hb1, hb2⟩ :=
        ih (some c) t h
      refine ⟨c :: pre, ds, post, ?_, ht, hds, hlo, hhi, ?_, hb2⟩
      · rw [List.cons_append, List.cons_append, ← hl]
      · rw [lastCharOpt_cons]; exact hb1
    · rw [hm] at h
      obtain rfl : t2 = t := by injection h
      unfold psMatchAt at hm
      split at hm
      · rename_i rest2 heq
        injection heq with hc hrest
        dsimp only at hm
        split at hm
        · rename_i hcond
          obtain ⟨hb1, hlo, hhi, hb2⟩ := hcond
          injection hm with hm2
          refine ⟨[], digitTake rest2,
            rest2.drop (digitTake rest2).length, ?_, hm2.symm,
            digitTake_digits rest2, hlo, hhi, hb1, hb2⟩
          rw [List.nil_append, hc, hrest]
          exact congrArg (fun z => 'P' :: 'S' :: z) (digitTake_decomp rest2)
        · cases hm
      · cases hm

/-- Upper-casing fixes a digit list. -/
theorem map_upChar_digits (ds : List Char) (h : ∀ c ∈ ds, c.isDigit = true) :
    ds.map upChar = ds := by
  induction ds with
  | nil => rfl
  | cons c rest ih =>
    rw [List.map_cons, upChar_digit c (h c (List.mem_cons_self c rest)),
      ih (fun x hx => h x (List.mem_cons_of_mem c hx))]

/-- Upper-casing fixes a PS-digit token. -/
theorem strUpper_psString (ds : List Char) (h : ∀ c ∈ ds, c.isDigit = true) :
    (strUpper (psString ds)).data = 'P' :: 'S' :: ds := by
  show (('P' :: 'S' :: ds).map upChar) = _
  rw [List.map_cons, List.map_cons, map_upChar_digits ds h,
    show upChar 'P' = 'P' from by decide, show upChar 'S' = 'S' from by decide]

/-- The match attempt at the head of an all-digit PS token succeeds exactly
when the digit count lies in the quantifier range. -/
theorem psMatchAt_ps_digits (lo hi : Nat) (ds : List Char)
    (h : ∀ c ∈ ds, c.isDigit = true) :
    psMatchAt lo hi none ('P' :: 'S' :: ds) =
      if lo ≤ ds.length ∧ ds.length ≤ hi then some ('P' :: 'S' :: ds)
      else none := by
  unfold psMatchAt
  split
  · rename_i rest2 heq
    injection heq with _ heq2
    injection heq2 with _ heq3
    subst heq3
    rw [digitTake_all ds h]
    simp [boundaryBefore, boundaryAfter, List.drop_length]
  · rename_i hne
    exact absurd rfl (hne ds)

/-- The plain extractor rejects a PS token whose digit count is outside
5–10. -/
theorem extractPartNumber_ps_digits (ds : List Char)
    (h : ∀ c ∈ ds, c.isDigit = true)
    (hc : ¬ (5 ≤ ds.length ∧ ds.length ≤ 10)) :
    extractPartNumber (psString ds) = none := by
  unfold extractPartNumber
  rw [strUpper_psString ds h, findPS_cons, psMatchAt_ps_digits 5 10 ds h,
    if_neg hc]
  dsimp only
  rw [findPS_cons, psMatchAt_ne_P 5 10 (some 'P') 'S' ds (by decide)]
  dsimp only
  rw [findPS_no_P 5 10 ds (some 'S') (fun c hcm => digit_ne_P c (h c hcm))]
  rfl

/-- The short-token extractor accepts a PS token of 1–4 digits. -/
theorem extractShortPartToken_ps_digits (ds : List Char)
    (h : ∀ c ∈ ds, c.isDigit = true) (h1 : 1 ≤ ds.length)
    (h4 : ds.length ≤ 4) :
    extractShortPartToken (psString ds) = some (psString ds) := by
  unfold extractShortPartToken
  rw [strUpper_psString ds h, findPS_cons, psMatchAt_ps_digits 1 4 ds h,
    if_pos ⟨h1, h4⟩]
  rfl

/-- The boundary-free URL scanner truncates a long digit run to its first
ten digits. -/
theorem findPSUrl_ps_digits (ds : List Char)
    (h : ∀ c ∈ ds, c.isDigit = true) (h5 : 5 ≤ ds.length) :
    findPSUrl ('P' :: 'S' :: ds) = some ('P' :: 'S' :: ds.take 10) := by
  unfold findPSUrl
  rw [if_pos (Or.inl rfl)]
  dsimp only
  rw [if_pos (Or.inl rfl), digitTake_all ds h, if_pos h5]

/-- The link-or-text extractor truncates a PS run of at least 11 digits. -/
theorem fromLink_ps_long (ds : List Char) (h : ∀ c ∈ ds, c.isDigit = true)
    (h11 : 11 ≤ ds.length) :
    extractPartNumberFromLinkOrText (psString ds) =
      some (psString (ds.take 10)) := by
  unfold extractPartNumberFromLinkOrText
  rw [extractPartNumber_ps_digits ds h (by omega)]
  show (findPSUrl ('P' :: 'S' :: ds)).map _ = _
  rw [findPSUrl_ps_digits ds h (by omega)]
  show some (String.mk (('P' :: 'S' :: ds.take 10).map upChar)) = _
  rw [List.map_cons, List.map_cons,
    map_upChar_digits (ds.take 10)
      (fun c hc => h c (List.take_subset 10 ds hc)),
    show upChar 'P' = 'P' from by decide, show upChar 'S' = 'S' from by decide]
  rfl

/-- The truncated token differs from the full run. -/
theorem psString_take_ne (ds : List Char) (h11 : 11 ≤ ds.length) :
    psString (ds.take 10) ≠ psString ds := by
  intro he
  have hd : ('P' :: 'S' :: ds.take 10) = ('P' :: 'S' :: ds) :=
    congrArg String.data he
  have hds : ds.take 10 = ds := by
    injection hd with _ h2
    injection h2
  have hl : (ds.take 10).length = ds.length := congrArg List.length hds
  rw [List.length_take] at hl
  omega

/-- The domain gate accepts the message PS117 regardless of slot and
residual entities (it contains the letters ps). -/
theorem domainAllowed_ps117 (aw : Option Awaiting) (p m : Option String) :
    domainAllowed "PS117" aw p m = true := by
  unfold domainAllowed
  simp only [show containsSub (strLower "PS117") "ps" = true from by decide]
  simp

/-- The message PS117 resolves to an incomplete part token for any
history. -/
theorem prep117_incomplete (h : List ChatMessage) :
    (prepared "PS117" h).ents.hasIncompletePart = true := rfl

/-- The short token resolved from the message PS117. -/
theorem prep117_short (h : List ChatMessage) :
    (prepared "PS117" h).ents.shortPart = some "PS117" := rfl

/-- Claim C6: part-number token discipline — the plain extractor succeeds
only on a word-bounded PS token of 5–10 digits occurring in the upper-cased
text; a PS token of 1–4 digits never satisfies the plain extractor but does
satisfy the short-token extractor; and on the message PS117 the router, for
every history and environment, replies by asking for the full PartSelect
part number, echoing PS117 as a hint. -/
theorem c6_part_token_discipline :
    (∀ (text v : String), extractPartNumber text = some v →
      ∃ pre ds post,
        (strUpper text).data = pre ++ ('P' :: 'S' :: ds) ++ post ∧
        v = String.mk ('P' :: 'S' :: ds) ∧ (∀ c ∈ ds, c.isDigit = true) ∧
        5 ≤ ds.length ∧ ds.length ≤ 10 ∧
        boundaryBefore (lastCharOpt none pre) = true ∧
        boundaryAfter post = true) ∧
    (∀ ds : List Char, (∀ c ∈ ds, c.isDigit = true) → 1 ≤ ds.length →
      ds.length ≤ 4 →
      extractPartNumber (psString ds) = none ∧
      extractShortPartToken (psString ds) = some (psString ds)) ∧
    (∀ (env : Env) (h : List ChatMessage),
      (handleChatTurn env "PS117" h).reply =
        replyAskForFullPart (some "PS117")) ∧
    replyAskForFullPart (some "PS117") =
      "What’s the full PartSelect part number (starts with PS…)?\n\nI saw \"PS117\" — part numbers usually look like PS + 5–10 digits." := by
  refine ⟨?_, ?_, ?_, by decide⟩
  · intro text v hv
    unfold extractPartNumber at hv
    rw [Option.map_eq_some'] at hv
    obtain ⟨t, ht, rfl⟩ := hv
    obtain ⟨pre, ds, post, hl, rfl, hds, hlo, hhi, hb1, hb2⟩ :=
      findPS_sound 5 10 (strUpper text).data none t ht
    exact ⟨pre, ds, post, hl, rfl, hds, hlo, hhi, hb1, hb2⟩
  · intro ds h h1 h4
    exact ⟨extractPartNumber_ps_digits ds h (by omega),
      extractShortPartToken_ps_digits ds h h1 h4⟩
  · intro env h
    unfold handleChatTurn respond
    simp only [prep117_incomplete, prep117_short,
      show (prepared "PS117" h).message = "PS117" from rfl,
      domainAllowed_ps117]
    simp

/-- Witness for C6 at concrete inputs: the extractor on a full token, the
incomplete token PS117, and the router turn on PS117. -/
theorem c6_part_token_discipline_witness :
    (extractPartNumber "PS11752778" = some "PS11752778" ∧
      (∃ pre ds post,
        (strUpper "PS11752778").data = pre ++ ('P' :: 'S' :: ds) ++ post ∧
        "PS11752778" = String.mk ('P' :: 'S' :: ds) ∧
        (∀ c ∈ ds, c.isDigit = true) ∧ 5 ≤ ds.length ∧ ds.length ≤ 10 ∧
        boundaryBefore (lastCharOpt none pre) = true ∧
        boundaryAfter post = true)) ∧
    ((∀ c ∈ ['1', '1', '7'], c.isDigit = true) ∧
      extractPartNumber (psString ['1', '1', '7']) = none ∧
      extractShortPartToken (psString ['1', '1', '7']) =
        some (psString ['1', '1', '7'])) ∧
    (handleChatTurn env0 "PS117" []).reply =
      replyAskForFullPart (some "PS117") :=
  ⟨⟨by decide,
      c6_part_token_discipline.1 "PS11752778" "PS11752778" (by decide)⟩,
    ⟨by decide,
      c6_part_token_discipline.2.1 ['1', '1', '7'] (by decide) (by decide)
        (by decide)⟩,
    c6_part_token_discipline.2.2.1 env0 []⟩

set_option maxRecDepth 4000 in
/-- Claim C10: the URL-fallback extractor has no token boundaries — on an
input that is PS followed by 11 or more digits the word-bounded extractor
returns nothing, while the link-or-text extractor returns PS plus the first
ten digits, a truncated value different from the input token; the truncated
value counts as an explicit part number for clear-shift detection and part
lookup, and at the concrete input the router looks up the truncated value
in the catalog. -/
theorem c10_url_fallback_truncation :
    (∀ ds : List Char, (∀ c ∈ ds, c.isDigit = true) → 11 ≤ ds.length →
      extractPartNumber (psString ds) = none ∧
      extractPartNumberFromLinkOrText (psString ds) =
        some (psString (ds.take 10)) ∧
      psString (ds.take 10) ≠ psString ds) ∧
    extractPartNumber "PS123456789012" = none ∧
    extractPartNumberFromLinkOrText "PS123456789012" =
      some "PS1234567890" ∧
    isClearIntentShift "PS123456789012" = true ∧
    inferIntent "PS123456789012" = .part_lookup ∧
    (handleChatTurn env0 "PS123456789012" []).reply =
      "I can’t find PS1234567890 in the demo catalog. If you paste the PartSelect link, I can still help with install/troubleshooting." := by
  refine ⟨?_, by decide, by decide, by decide, by decide, by decide⟩
  intro ds h h11
  exact ⟨extractPartNumber_ps_digits ds h (by omega),
    fromLink_ps_long ds h h11, psString_take_ne ds h11⟩

/-- Witness for C10 at a concrete digit run of length 12. -/
theorem c10_url_fallback_truncation_witness :
    (∀ c ∈ "123456789012".data, c.isDigit = true) ∧
    11 ≤ "123456789012".data.length ∧
    extractPartNumber (psString "123456789012".data) = none ∧
    extractPartNumberFromLinkOrText (psString "123456789012".data) =
      some (psString ("123456789012".data.take 10)) ∧
    psString ("123456789012".data.take 10) ≠
      psString "123456789012".data :=
  ⟨by decide, by decide,
    (c10_url_fallback_truncation.1 "123456789012".data (by decide)
      (by decide)).1,
    (c10_url_fallback_truncation.1 "123456789012".data (by decide)
      (by decide)).2.1,
    (c10_url_fallback_truncation.1 "123456789012".data (by decide)
      (by decide)).2.2⟩

set_option maxRecDepth 4000 in
/-- Claim C5: tri-state compatibility is never collapsed — with both a part
number and a model number available on the compatibility path, a true tool
result yields the looks-compatible phrasing, a false result the
doesnt-look-compatible phrasing, and an indeterminate result (part absent
from both the compatibility index and the catalog) the distinct
cant-confirm phrasing; the three phrasings are pairwise different, so a
not-found result is never reported as no. -/
theorem c5_tristate_compatibility :
    ∀ (compat : List CompatibilityRow) (parts : List CatalogPart)
      (guides : List Guide) (r : Nat) (k : Option String) (o : GroqOutcome),
      ((toolCheckCompatibility compat parts "PS11752778"
          "WDT780SAEM1").compatible = some true →
        (handleChatTurn ⟨compat, parts, guides, r, k, o⟩ c5Message []).reply =
          c5YesReply) ∧
      ((toolCheckCompatibility compat parts "PS11752778"
          "WDT780SAEM1").compatible = some false →
        (handleChatTurn ⟨compat, parts, guides, r, k, o⟩ c5Message []).reply =
          c5NoReply) ∧
      ((toolCheckCompatibility compat parts "PS11752778"
          "WDT780SAEM1").compatible = none →
        (handleChatTurn ⟨compat, parts, guides, r, k, o⟩ c5Message []).reply =
          c5CantReply) ∧
      ((∀ row ∈ compat, row.partNumber ≠ "PS11752778") →
        (∀ p ∈ parts, p.partNumber ≠ "PS11752778") →
        (toolCheckCompatibility compat parts "PS11752778"
          "WDT780SAEM1").compatible = none) ∧
      c5YesReply ≠ c5NoReply ∧ c5YesReply ≠ c5CantReply ∧
      c5NoReply ≠ c5CantReply := by
  intro compat parts guides r k o
  have key : (handleChatTurn ⟨compat, parts, guides, r, k, o⟩ c5Message
      []).reply =
      (match (toolCheckCompatibility compat parts "PS11752778"
          "WDT780SAEM1").compatible with
        | some true => "Yes — PS11752778 looks compatible with WDT780SAEM1."
        | some false =>
          "No — PS11752778 doesn’t look compatible with WDT780SAEM1 in this demo catalog."
        | none =>
          "I can’t confirm compatibility for PS11752778 with WDT780SAEM1 from the current demo index.") ++
      "\nWant install steps, or are you troubleshooting a symptom?" := rfl
  refine ⟨?_, ?_, ?_, ?_, by decide, by decide, by decide⟩
  · intro hres
    rw [hres] at key
    exact key.trans (by decide)
  · intro hres
    rw [hres] at key
    exact key.trans (by decide)
  · intro hres
    rw [hres] at key
    exact key.trans (by decide)
  · intro hrow hpart
    unfold toolCheckCompatibility
    dsimp only
    have e1 : compat.find? (fun rw2 => rw2.partNumber = normU "PS11752778") =
        none := by
      rw [List.find?_eq_none]
      intro x hx
      simp only [show normU "PS11752778" = "PS11752778" from by decide,
        decide_eq_true_eq]
      exact hrow x hx
    have e2 : parts.find? (fun p => p.partNumber = normU "PS11752778") =
        none := by
      rw [List.find?_eq_none]
      intro x hx
      simp only [show normU "PS11752778" = "PS11752778" from by decide,
        decide_eq_true_eq]
      exact hpart x hx
    rw [e1, e2]


/-- Witness for C5 with empty datasets: the probe part is absent from both
datasets, so the result is indeterminate and the reply is the cant-confirm
phrasing. -/
theorem c5_tristate_compatibility_witness :
    (toolCheckCompatibility [] [] "PS11752778" "WDT780SAEM1").compatible =
      none ∧
    (handleChatTurn ⟨[], [], [], 0, none, .timeout⟩ c5Message []).reply =
      c5CantReply :=
  ⟨by decide,
    (c5_tristate_compatibility [] [] [] 0 none .timeout).2.2.1 (by decide)⟩

/-! ### Lemmas for the router-level claims -/

/-- The prepared message field. -/
theorem prepared_message (m : String) (h : List ChatMessage) :
    (prepared m h).message = m := rfl

/-- The prepared history field. -/
theorem prepared_history (m : String) (h : List ChatMessage) :
    (prepared m h).history = h := rfl

/-- Clearing can only remove a slot, so no reconstructed slot stays none. -/
theorem prepared_awaiting_of_none (m : String) (h : List ChatMessage)
    (h1 : inferDialogState h = none) : (prepared m h).awaiting = none := by
  unfold prepared
  dsimp only
  rw [h1]
  exact ite_self none

/-- With no active slot every slot branch falls through. -/
theorem slotChain_of_none (k : Option String) (o : GroqOutcome)
    (ctx : TurnCtx) (h : ctx.awaiting = none) : slotChain k o ctx = none := by
  simp [slotChain, orderInfoBranch, drainSpeedBranch, fridgeWarmingBranch,
    pumpSoundBranch, hoseSetupBranch, sinkConnBranch, disposalFlowBranch,
    disposalKnockoutBranch, tailpieceBranch, didItFixBranch, choiceBranch,
    panelFastenerBranch, clampTypeBranch, panelStillBranch,
    connectorMovingBranch, connectorLatchBranch, installStepBranch,
    respOrElse, h]

/-- An active slot passes the domain gate outright. -/
theorem domainAllowed_someAw (m : String) (aw : Awaiting)
    (p q : Option String) : domainAllowed m (some aw) p q = true := by
  unfold domainAllowed
  simp

/-- With the install_step slot active, the slot chain reduces to the
install-step branch. -/
theorem slotChain_install (k : Option String) (o : GroqOutcome)
    (ctx : TurnCtx) (hct : ctx.awaiting = some .install_step) :
    slotChain k o ctx = installStepBranch ctx := by
  simp [slotChain, orderInfoBranch, drainSpeedBranch, fridgeWarmingBranch,
    pumpSoundBranch, hoseSetupBranch, sinkConnBranch, disposalFlowBranch,
    disposalKnockoutBranch, tailpieceBranch, didItFixBranch, choiceBranch,
    panelFastenerBranch, clampTypeBranch, panelStillBranch,
    connectorMovingBranch, connectorLatchBranch, respOrElse, hct]

set_option maxRecDepth 8000 in
/-- The install-step question reconstructs the install_step slot. -/
theorem installQuestion_dialog (h : List ChatMessage)
    (hla : lastAssistant h = some ⟨.assistant, installStepQuestion⟩) :
    inferDialogState h = some .install_step := by
  unfold inferDialogState
  rw [hla]
  decide

set_option maxRecDepth 8000 in
/-- The install-step question does not look like a pending email handoff. -/
theorem installQuestion_noHandoff (h : List ChatMessage)
    (hla : lastAssistant h = some ⟨.assistant, installStepQuestion⟩) :
    handoffPending h = false := by
  unfold handoffPending
  rw [hla]
  decide

set_option maxRecDepth 8000 in
/-- After the install-step question, the reply clamps resolves to the clamps
step. -/
theorem installQuestion_detect (h : List ChatMessage)
    (hla : lastAssistant h = some ⟨.assistant, installStepQuestion⟩) :
    detectInstallStepFollowup h "clamps" = some .clamps := by
  unfold detectInstallStepFollowup
  rw [hla]
  decide

/-- The message clamps never clears the install_step slot, whatever the
pinned appliance. -/
theorem clamps_shouldClear (a : Appliance) :
    shouldClearAwaiting (some .install_step) (inferIntent "clamps") a
      "clamps" = false := by
  cases a <;> decide

/-- After the install-step question, the prepared slot is install_step. -/
theorem clamps_prep_awaiting (h : List ChatMessage)
    (hla : lastAssistant h = some ⟨.assistant, installStepQuestion⟩) :
    (prepared "clamps" h).awaiting = some .install_step := by
  unfold prepared
  dsimp only
  rw [installQuestion_dialog h hla,
    clamps_shouldClear (inferPinnedAppliance "clamps" h)]
  simp

/-- After the install-step question, no handoff is pending on the clamps
turn. -/
theorem clamps_prep_pending (h : List ChatMessage)
    (hla : lastAssistant h = some ⟨.assistant, installStepQuestion⟩) :
    (prepared "clamps" h).pending = false := by
  unfold prepared
  dsimp only
  rw [installQuestion_noHandoff h hla]
  simp

/-- Claim C1: intent non-stealing — for every history whose most recent
assistant turn asks the install-step question, the reply clamps resolves to
installation_help with the hose-clamp follow-up reply ending in the
clamp-type question, and never to part_lookup. -/
theorem c1_intent_non_stealing :
    ∀ (env : Env) (h : List ChatMessage),
      lastAssistant h = some ⟨.assistant, installStepQuestion⟩ →
      (handleChatTurn env "clamps" h).reply = clampsHelpReply ∧
      (handleChatTurn env "clamps" h).meta.intent = .installation_help ∧
      (handleChatTurn env "clamps" h).meta.intent ≠ .part_lookup := by
  intro env h hla
  have haw := clamps_prep_awaiting h hla
  have hpd := clamps_prep_pending h hla
  have hmail : (prepared "clamps" h).email = none := rfl
  have hinc : (prepared "clamps" h).ents.hasIncompletePart = false := rfl
  have key : (handleChatTurn env "clamps" h).reply = clampsHelpReply ∧
      (handleChatTurn env "clamps" h).meta.intent = .installation_help := by
    unfold handleChatTurn respond afterHandoff
    rw [slotChain_install env.groqApiKey env.groqOutcome _ haw]
    simp only [haw, hpd, hmail, hinc, prepared_message, prepared_history,
      domainAllowed_someAw, installStepBranch,
      installQuestion_detect h hla,
      show isClearIntentShift "clamps" = false from by decide,
      show wantsHuman "clamps" = false from by decide,
      show looksLikeAck "clamps" = false from by decide,
      show looksLikeSmallTalk "clamps" = false from by decide]
    simp [mkResp, replyInstallStepHelp, clampsHelpReply]
  refine ⟨key.1, key.2, ?_⟩
  rw [key.2]
  decide

/-- Witness for C1 on the minimal history holding only the install-step
question. -/
theorem c1_intent_non_stealing_witness :
    lastAssistant [⟨Role.assistant, installStepQuestion⟩] =
      some ⟨.assistant, installStepQuestion⟩ ∧
    (handleChatTurn env0 "clamps"
      [⟨Role.assistant, installStepQuestion⟩]).reply = clampsHelpReply ∧
    (handleChatTurn env0 "clamps"
      [⟨Role.assistant, installStepQuestion⟩]).meta.intent =
      .installation_help :=
  ⟨by decide,
    (c1_intent_non_stealing env0 [⟨Role.assistant, installStepQuestion⟩]
      (by decide)).1,
    (c1_intent_non_stealing env0 [⟨Role.assistant, installStepQuestion⟩]
      (by decide)).2.1⟩

/-- The dishwasher message passes the domain gate through its appliance
keyword, regardless of slot and residual entities. -/
theorem domainAllowed_dw (aw : Option Awaiting) (p m : Option String) :
    domainAllowed "my dishwasher won\x27t drain" aw p m = true := by
  unfold domainAllowed
  simp only [show containsSub (strLower "my dishwasher won\x27t drain")
    "dishwasher" = true from by decide]
  simp

/-- Redirect side of the domain gate: with no slot and no residual entities,
the weather message is rejected as out of domain. -/
theorem domainGate_redirect (env : Env) (h : List ChatMessage)
    (h1 : inferDialogState h = none) (h2 : findLastPartNumber h = none)
    (h3 : findLastModelNumberForAppliance h
      (inferPinnedAppliance weatherMessage h) = none) :
    (handleChatTurn env weatherMessage h).meta.inDomain = false ∧
    (handleChatTurn env weatherMessage h).meta.intent = .unknown ∧
    (handleChatTurn env weatherMessage h).reply =
      "I’m focused on PartSelect refrigerator and dishwasher parts (compatibility, install, troubleshooting, basic order support).\nIf you share a PS part number or model number, I can help from there." := by
  have haw := prepared_awaiting_of_none weatherMessage h h1
  have hpn : (prepared weatherMessage h).ents.partNumber =
      findLastPartNumber h := rfl
  have hmn : (prepared weatherMessage h).ents.modelNumber =
      findLastModelNumberForAppliance h
        (inferPinnedAppliance weatherMessage h) := rfl
  have hall : domainAllowed (prepared weatherMessage h).message
      (prepared weatherMessage h).awaiting
      (prepared weatherMessage h).ents.partNumber
      (prepared weatherMessage h).ents.modelNumber = false := by
    rw [prepared_message, haw, hpn, h2, hmn, h3]
    decide
  unfold handleChatTurn respond
  simp only [hall]
  simp [outOfDomainResponse]

/-- Troubleshooting side of the domain gate: the dishwasher drain complaint
is accepted and routed to troubleshooting. -/
theorem domainGate_troubleshoot (env : Env) (h : List ChatMessage)
    (h1 : inferDialogState h = none) (h2 : handoffPending h = false) :
    (handleChatTurn env "my dishwasher won\x27t drain" h).meta.inDomain =
      true ∧
    (handleChatTurn env "my dishwasher won\x27t drain" h).meta.intent =
      .troubleshooting := by
  have haw := prepared_awaiting_of_none "my dishwasher won\x27t drain" h h1
  have hint : (prepared "my dishwasher won\x27t drain" h).intent0 =
      .troubleshooting := by
    unfold prepared
    dsimp only
    rw [h1]
    rfl
  have hpd : (prepared "my dishwasher won\x27t drain" h).pending = false := by
    unfold prepared
    dsimp only
    rw [h2]
    simp
  have hmail : (prepared "my dishwasher won\x27t drain" h).email = none := rfl
  have happ : (prepared "my dishwasher won\x27t drain" h).appliance =
      .dishwasher := by
    show inferPinnedAppliance "my dishwasher won\x27t drain" h = _
    unfold inferPinnedAppliance
    simp [show inferApplianceFromText "my dishwasher won\x27t drain" =
      .dishwasher from by decide]
  have hinc : (prepared "my dishwasher won\x27t drain"
      h).ents.hasIncompletePart = false := rfl
  have hmeta : (prepared "my dishwasher won\x27t drain" h).metaBase.inDomain =
      true := rfl
  unfold handleChatTurn respond afterHandoff topLevel
  rw [slotChain_of_none env.groqApiKey env.groqOutcome _ haw]
  simp only [domainAllowed_dw, prepared_message, hinc, hmail, haw, hint,
    hpd, happ, hmeta]
  simp [show wantsHuman "my dishwasher won\x27t drain" = false from
      by decide,
    show looksLikeAck "my dishwasher won\x27t drain" = false from by decide,
    show looksLikeSmallTalk "my dishwasher won\x27t drain" = false from
      by decide]
  exact ⟨hmeta, rfl⟩

/-- Claim C8: the domain gate — with no active slot and no residual
entities the weather question is redirected with inDomain false and intent
unknown, while the dishwasher drain complaint is accepted with inDomain
true and intent troubleshooting. -/
theorem c8_domain_gate :
    (∀ (env : Env) (h : List ChatMessage),
      inferDialogState h = none → findLastPartNumber h = none →
      findLastModelNumberForAppliance h
        (inferPinnedAppliance weatherMessage h) = none →
      (handleChatTurn env weatherMessage h).meta.inDomain = false ∧
      (handleChatTurn env weatherMessage h).meta.intent = .unknown ∧
      (handleChatTurn env weatherMessage h).reply =
        "I’m focused on PartSelect refrigerator and dishwasher parts (compatibility, install, troubleshooting, basic order support).\nIf you share a PS part number or model number, I can help from there.") ∧
    (∀ (env : Env) (h : List ChatMessage),
      inferDialogState h = none → handoffPending h = false →
      (handleChatTurn env "my dishwasher won\x27t drain" h).meta.inDomain =
        true ∧
      (handleChatTurn env "my dishwasher won\x27t drain" h).meta.intent =
        .troubleshooting) :=
  ⟨fun env h h1 h2 h3 => domainGate_redirect env h h1 h2 h3,
    fun env h h1 h2 => domainGate_troubleshoot env h h1 h2⟩

/-- Witness for C8 on the empty history. -/
theorem c8_domain_gate_witness :
    (inferDialogState ([] : List ChatMessage) = none ∧
      findLastPartNumber ([] : List ChatMessage) = none ∧
      (handleChatTurn env0 weatherMessage []).meta.inDomain = false ∧
      (handleChatTurn env0 weatherMessage []).meta.intent = .unknown) ∧
    (handoffPending ([] : List ChatMessage) = false ∧
      (handleChatTurn env0 "my dishwasher won\x27t drain" []).meta.inDomain =
        true ∧
      (handleChatTurn env0 "my dishwasher won\x27t drain" []).meta.intent =
        .troubleshooting) :=
  ⟨⟨rfl, rfl,
      (c8_domain_gate.1 env0 [] rfl rfl rfl).1,
      (c8_domain_gate.1 env0 [] rfl rfl rfl).2.1⟩,
    ⟨rfl,
      (c8_domain_gate.2 env0 [] rfl rfl).1,
      (c8_domain_gate.2 env0 [] rfl rfl).2⟩⟩

set_option maxRecDepth 8000 in
/-- Claim C3 at its failing input: with the connector latch question active
and the unparseable answer hmm maybe (not a clear shift, no parsable latch
side, no yes/no), the router re-asks with the canonical latch re-ask text —
but that re-ask text is recognized by no slot-detection rule, so
reconstructing the slot from the extended conversation yields no slot
instead of connector_latch_side: the unparseable answer silently resets the
state that the specification says is preserved. -/
theorem c3_reask_loses_latch_slot :
    inferDialogState latchHistory = some .connector_latch_side ∧
    isClearIntentShift "hmm maybe" = false ∧
    parseLatchSide "hmm maybe" = none ∧
    parseYesNo "hmm maybe" = none ∧
    (handleChatTurn env0 "hmm maybe" latchHistory).reply = latchReask ∧
    inferDialogState (latchHistory ++
      [⟨.user, "hmm maybe"⟩, ⟨.assistant, latchReask⟩]) = none := by
  refine ⟨by decide, by decide, by decide, by decide, by decide, by decide⟩
